import Mathlib

/-!
# Streamy backend: Agora token service and controller

A shallow embedding of `backend/src/services/agoraTokenService.js`,
`backend/src/controllers/AgoraController.js`, the viewer-count methods of
`backend/src/services/SupabaseService.js`, the token routes of
`backend/src/routes/agoraNew.js` and the error middleware of
`backend/src/server.js`, followed by theorems about the identity hash,
credential construction, its error behaviour, rate limiting, viewer accounting
and what responses disclose.

JavaScript numbers that occur here are integers of magnitude far below 2^53,
so they are represented exactly by `Int`.  Thrown `Error` objects are
represented by their `message`.  The token builder of `agora-token` and the
Supabase client are external and enter as parameters; the rate limiter of
`rate-limiter-flexible` and the database procedures behind the viewer counter
are modelled from the specification.
-/

namespace Streamy

deriving instance DecidableEq for Except

/-! ## JavaScript values -/

/-- A UTF-16 code unit, the element type of a JavaScript string. -/
abbrev CodeUnit := Fin 65536

/-- A JavaScript string: a finite sequence of UTF-16 code units. -/
abbrev JSString := List CodeUnit

/-- UTF-16 encoding of one Unicode scalar value. -/
def utf16Char (c : Char) : List CodeUnit :=
  let n := c.toNat
  if n < 65536 then [Fin.ofNat n]
  else
    let m := n - 65536
    [Fin.ofNat (55296 + m / 1024), Fin.ofNat (56320 + m % 1024)]

/-- The JavaScript string denoted by a string literal. -/
def utf16 (s : String) : JSString := s.toList.flatMap utf16Char

/-- The primitive JavaScript values that reach the functions modelled here
(objects are not needed; numbers are integral). -/
inductive JSVal where
  | undefined
  | null
  | bool (b : Bool)
  | num (n : Int)
  | str (s : JSString)
  deriving DecidableEq, Repr

namespace JSVal

/-- ToBoolean: the value is not falsy, so `!v` is `!(truthy v)`. -/
def truthy : JSVal → Bool
  | undefined => false
  | null => false
  | bool b => b
  | num n => n != 0
  | str s => !s.isEmpty

/-- The test `typeof v === 'string'`. -/
def isString : JSVal → Bool
  | str _ => true
  | _ => false

/-- The test `typeof v === 'number'`. -/
def isNumber : JSVal → Bool
  | num _ => true
  | _ => false

/-- The comparison `v < 0` for a value already known to be a number. -/
def ltZero : JSVal → Bool
  | num n => decide (n < 0)
  | _ => false

end JSVal

/-- A parameter declared with a default value: an omitted or `undefined`
argument takes the default. -/
def defaultParam (arg dflt : JSVal) : JSVal :=
  match arg with
  | .undefined => dflt
  | v => v

/-! ## 32-bit integer operators -/

/-- ECMAScript ToInt32 on an integral number. -/
def toInt32 (x : Int) : Int :=
  let m := x % 4294967296
  if m ≥ 2147483648 then m - 4294967296 else m

/-- The operator `x << k`. -/
def shiftLeft (x : Int) (k : Nat) : Int :=
  toInt32 (toInt32 x * 2 ^ (k % 32))

/-- The operator `a & b`. -/
def bitAnd (a b : Int) : Int :=
  Int.land (toInt32 a) (toInt32 b)

/-! ## The identity hash -/

/-- One iteration of the loop body shared by both hash functions:
`hash = ((hash << 5) - hash) + char; hash = hash & hash`. -/
def hashStep (hash : Int) (char : CodeUnit) : Int :=
  let hash1 := (shiftLeft hash 5 - hash) + (char.val : Int)
  bitAnd hash1 hash1

/-- The loop `for (i = 0; i < s.length; i++)` started from `hash = 0`. -/
def hashLoop (s : JSString) : Int :=
  s.foldl hashStep 0

/-- The final expression `Math.abs(hash) % 2147483647`. -/
def absMod (hash : Int) : Int :=
  Int.tmod (hash.natAbs : Int) 2147483647

namespace AgoraTokenService

/-- `generateUidFromUserId(userId)`.  A falsy argument returns 0 at once; for
a truthy value that is not a string `userId.length` is `undefined`, the loop
condition `0 < undefined` is false and the hash stays 0. -/
def generateUidFromUserId (userId : JSVal) : Int :=
  if !userId.truthy then 0
  else
    match userId with
    | .str s => absMod (hashLoop s)
    | _ => absMod 0

end AgoraTokenService

/-! ## The token service -/

/-- The part of `process.env` that the service and the controller read. -/
structure Env where
  AGORA_APP_ID : Option String
  AGORA_APP_CERTIFICATE : Option String
  NODE_ENV : Option String
  deriving DecidableEq, Repr

/-- The privilege constants of the `agora-token` package. -/
inductive RtcRole where
  | PUBLISHER
  | SUBSCRIBER
  deriving DecidableEq, Repr

/-- The arguments of one call of `RtcTokenBuilder.buildTokenWithUid`. -/
structure BuilderCall where
  appId : String
  appCertificate : String
  channelName : JSVal
  uid : JSVal
  role : RtcRole
  tokenExpireTime : Int
  deriving DecidableEq, Repr

/-- The external token builder of the `agora-token` package: it returns the
token text or throws. -/
abbrev TokenBuilder := BuilderCall → Except String String

/-- The object returned by `generateRtcToken`.  The two ISO-8601 texts are
represented by the time value (milliseconds) they render. -/
structure TokenResult where
  token : String
  appId : String
  channelName : JSVal
  uid : JSVal
  role : JSVal
  expireTime : Int
  expiresAt : Int
  generatedAt : Int
  deriving DecidableEq, Repr

/-- What a service method did: the builder calls it made, in order, and the
value it returned or the message of the error it threw. -/
structure Outcome where
  calls : List BuilderCall
  result : Except String TokenResult

/-- The largest magnitude of a valid `Date` time value, in milliseconds. -/
def maxTimeValue : Int := 8640000000000000

/-- The expression `new Date(t).toISOString()`: a RangeError when `t` is
outside the range of valid time values. -/
def toISOString (t : Int) : Except String Int :=
  if -maxTimeValue ≤ t ∧ t ≤ maxTimeValue then .ok t else .error "Invalid time value"

/-- The fields set by the constructor of `AgoraTokenService`. -/
structure AgoraTokenService where
  appId : String
  appCertificate : String
  defaultExpireTime : Int
  deriving DecidableEq, Repr

namespace AgoraTokenService

/-- The constructor: reads the two environment variables, throws when either
is unset or empty, and sets the default validity to 24 hours. -/
def constructor (env : Env) : Except String AgoraTokenService :=
  match env.AGORA_APP_ID, env.AGORA_APP_CERTIFICATE with
  | some appId, some appCertificate =>
    if appId.isEmpty || appCertificate.isEmpty then
      .error "Configuration Agora manquante: AGORA_APP_ID et AGORA_APP_CERTIFICATE sont requis"
    else
      .ok ⟨appId, appCertificate, 24 * 3600⟩
  | _, _ =>
    .error "Configuration Agora manquante: AGORA_APP_ID et AGORA_APP_CERTIFICATE sont requis"

/-- The privilege chosen by `role === 'publisher' ? RtcRole.PUBLISHER :
RtcRole.SUBSCRIBER`. -/
def agoraRoleOf (role : JSVal) : RtcRole :=
  if role = .str (utf16 "publisher") then RtcRole.PUBLISHER else RtcRole.SUBSCRIBER

/-- The value of `expireTime || (currentTimestamp + this.defaultExpireTime)`,
where `currentTimestamp = Math.floor(Date.now() / 1000)`.  `expireTime` is
`none` for `null` and `some e` for the number `e`; the clock reading `now` is
in milliseconds since the epoch. -/
def tokenExpireTimeOf (self : AgoraTokenService) (now : Nat) (expireTime : Option Int) : Int :=
  let currentTimestamp : Int := (now : Int) / 1000
  match expireTime with
  | some e => if e ≠ 0 then e else currentTimestamp + self.defaultExpireTime
  | none => currentTimestamp + self.defaultExpireTime

/-- The body of the `try` block of `generateRtcToken`, on the parameter values
after defaulting: the builder calls made and the value returned or the message
of the error thrown. -/
def generateRtcTokenTry (self : AgoraTokenService) (build : TokenBuilder) (now : Nat)
    (channelName uid role : JSVal) (expireTime : Option Int) :
    List BuilderCall × Except String TokenResult :=
  if !channelName.truthy || !channelName.isString then
    ([], .error "Le nom du canal est requis et doit être une chaîne")
  else if !uid.isNumber || uid.ltZero then
    ([], .error "UID doit être un nombre positif ou 0")
  else
    let agoraRole := agoraRoleOf role
    let tokenExpireTime := tokenExpireTimeOf self now expireTime
    let call : BuilderCall :=
      ⟨self.appId, self.appCertificate, channelName, uid, agoraRole, tokenExpireTime⟩
    match build call with
    | .error e => ([call], .error e)
    | .ok token =>
      match toISOString (tokenExpireTime * 1000) with
      | .error e => ([call], .error e)
      | .ok expiresAt =>
        ([call], .ok ⟨token, self.appId, channelName, uid, role, tokenExpireTime,
          expiresAt, (now : Int)⟩)

/-- `generateRtcToken(channelName, uid = 0, role = 'audience', expireTime = null)`:
the defaults are applied, and whatever the `try` block throws is rethrown with
the prefixed message. -/
def generateRtcToken (self : AgoraTokenService) (build : TokenBuilder) (now : Nat)
    (channelName uid role : JSVal) (expireTime : Option Int) : Outcome :=
  let r := generateRtcTokenTry self build now channelName
    (defaultParam uid (.num 0)) (defaultParam role (.str (utf16 "audience"))) expireTime
  match r.2 with
  | .ok v => ⟨r.1, .ok v⟩
  | .error message => ⟨r.1, .error ("Impossible de générer le token: " ++ message)⟩

/-- `generateViewerToken(channelName, userId)`. -/
def generateViewerToken (self : AgoraTokenService) (build : TokenBuilder) (now : Nat)
    (channelName userId : JSVal) : Outcome :=
  let uid := generateUidFromUserId userId
  generateRtcToken self build now channelName (.num uid) (.str (utf16 "audience")) none

/-- `generateHostToken(channelName, userId)`. -/
def generateHostToken (self : AgoraTokenService) (build : TokenBuilder) (now : Nat)
    (channelName userId : JSVal) : Outcome :=
  let uid := generateUidFromUserId userId
  generateRtcToken self build now channelName (.num uid) (.str (utf16 "publisher")) none

/-- `isTokenValid(expireTime)` at clock reading `now`. -/
def isTokenValid (now : Nat) (expireTime : Int) : Bool :=
  let currentTimestamp : Int := (now : Int) / 1000
  decide (expireTime > currentTimestamp)

end AgoraTokenService

namespace AgoraController

/-- `generateUidFromString(str)`.  There is no falsy guard: reading `.length`
of `undefined` or `null` throws a TypeError; other non-strings have no
`length`, so the loop does not run. -/
def generateUidFromString (str : JSVal) : Except String Int :=
  match str with
  | .undefined => .error "Cannot read properties of undefined (reading 'length')"
  | .null => .error "Cannot read properties of null (reading 'length')"
  | .str s => .ok (absMod (hashLoop s))
  | _ => .ok (absMod 0)

end AgoraController

/-! ## The persistence service -/

/-- What awaiting a call of the external Supabase client yields: an object
with members `data` and `error` (`error` is `none` for `null`), or a
rejection with the message of the thrown error. -/
inductive ClientOutcome (α : Type) where
  | resolved (data : α) (error : Option String)
  | rejected (message : String)

/-- The columns of a row of the table `lives` that the controllers read. -/
structure Live where
  id : JSVal
  host_id : JSVal
  is_live : JSVal
  agora_channel_id : JSVal
  deriving DecidableEq, Repr

/-- The behaviour of the external Supabase client `this.supabase`: the query
`from('lives').select(...).eq('id', liveId).single()` and the remote procedure
call `rpc(name, { live_id: liveId })`. -/
structure SupabaseClient where
  single : JSVal → ClientOutcome (Option Live)
  rpc : String → JSVal → ClientOutcome JSVal

/-- An instance of `SupabaseService`; its constructor creates the clients,
whose behaviour is passed to each method as a `SupabaseClient`. -/
structure SupabaseService where
  hasAdminClient : Bool
  deriving DecidableEq, Repr

namespace SupabaseService

/-- `getLiveById(liveId)`: an error member or a rejection is rethrown with the
message prefixed by 'Live non trouvé: '. -/
def getLiveById (db : SupabaseClient) (liveId : JSVal) : Except String (Option Live) :=
  match db.single liveId with
  | .resolved data none => .ok data
  | .resolved _ (some error) => .error ("Live non trouvé: " ++ error)
  | .rejected message => .error ("Live non trouvé: " ++ message)

/-- The `try` block shared by `incrementViewerCount` and
`decrementViewerCount`: `if (error) throw error; return data`. -/
def viewerCountTry (o : ClientOutcome JSVal) : Except String JSVal :=
  match o with
  | .resolved data none => .ok data
  | .resolved _ (some error) => .error error
  | .rejected message => .error message

/-- `incrementViewerCount(liveId)`: the `catch` block returns `false`. -/
def incrementViewerCount (db : SupabaseClient) (liveId : JSVal) : Except String JSVal :=
  match viewerCountTry (db.rpc "increment_viewer_count" liveId) with
  | .ok data => .ok data
  | .error _ => .ok (.bool false)

/-- `decrementViewerCount(liveId)`: the `catch` block returns `false`. -/
def decrementViewerCount (db : SupabaseClient) (liveId : JSVal) : Except String JSVal :=
  match viewerCountTry (db.rpc "decrement_viewer_count" liveId) with
  | .ok data => .ok data
  | .error _ => .ok (.bool false)

end SupabaseService

namespace AgoraTokenService

/-- `validateConfiguration()`: the value of `testToken && testToken.token &&
testToken.token.length > 50`, or `false` from the `catch` block. -/
def validateConfiguration (self : AgoraTokenService) (build : TokenBuilder) (now : Nat) :
    JSVal :=
  match (self.generateRtcToken build now (.str (utf16 "config-test")) (.num 1)
      (.str (utf16 "audience")) none).result with
  | .ok testToken =>
    if (utf16 testToken.token).isEmpty then .str []
    else .bool (decide ((utf16 testToken.token).length > 50))
  | .error _ => .bool false

end AgoraTokenService

/-- The object `testResult` of the handler `testConfiguration`, of which only
the member `success` is read. -/
structure TestResult where
  success : JSVal
  deriving DecidableEq, Repr

/-- The property `testConfiguration` of an `AgoraTokenService` instance.  The
class defines `generateRtcToken`, `generateViewerToken`, `generateHostToken`,
`renewToken`, `isTokenValid`, `generateUidFromUserId`, `generateTestTokens`,
`validateConfiguration` and `getConfigInfo`, and no `testConfiguration`: the
property read yields `undefined`, here `none`. -/
def AgoraTokenService.testConfigurationMember (_self : AgoraTokenService) :
    Option (Except String TestResult) :=
  none

/-! ## The controller -/

/-- The fields of `req.body` read by the token handlers; an absent field is
`undefined`. -/
structure TokenRequestBody where
  channelName : JSVal
  userId : JSVal
  deriving DecidableEq, Repr

/-- An entry of `errors.array()` of `express-validator`: the field and the
message of the rule that failed. -/
structure ValidationError where
  path : String
  msg : String
  deriving DecidableEq, Repr

/-- The JSON body a handler sends. -/
inductive ResponseBody where
  | failure (error : String) (details : Option String)
  | token (data : TokenResult) (message : String)
  | liveToken (data : TokenResult) (message : JSString)
  | joined (live : Live) (agoraToken : TokenResult) (message : String)
  | configTest (success : JSVal) (message : String)
  | configInfo (appId : String) (certificateConfigured : Bool) (isConfigValid : Bool)
      (environment : String) (message : String)
  | invalid (error : String) (details : List ValidationError)
  | rateLimited (error : String) (retryAfter : Int)
  | liveEnded (data : Option Live) (message : String)
  | created (live : Option Live) (agoraToken : TokenResult) (message : String)
  deriving DecidableEq, Repr

/-- The response a handler sends: `res.status(code).json(body)`, where
`res.json(body)` alone has status 200. -/
structure Response where
  status : Nat
  body : ResponseBody
  deriving DecidableEq, Repr

/-- What a handler did: the builder calls made and the response sent. -/
structure Handled where
  calls : List BuilderCall
  response : Response
  deriving DecidableEq, Repr

/-- An instance of `AgoraController`.  The constructor sets `agoraService`
only; `supabaseService`, which `createLive`, `joinLive` and `leaveLive` read,
is `none` (the property is `undefined`) unless something else assigns it. -/
structure AgoraController where
  agoraService : AgoraTokenService
  supabaseService : Option SupabaseService
  deriving DecidableEq, Repr

namespace AgoraController

/-- The constructor: `this.agoraService = new AgoraTokenService()`. -/
def constructor (env : Env) : Except String AgoraController :=
  match AgoraTokenService.constructor env with
  | .ok service => .ok ⟨service, none⟩
  | .error message => .error message

/-- The handler `generateViewerToken(req, res)` on `req.body`. -/
def generateViewerToken (self : AgoraController) (build : TokenBuilder) (now : Nat)
    (body : TokenRequestBody) : Handled :=
  if !body.channelName.truthy then
    ⟨[], ⟨400, .failure "Nom de canal requis" none⟩⟩
  else
    match (if body.userId.truthy then generateUidFromString body.userId else .ok 0) with
    | .error message => ⟨[], ⟨500, .failure "Erreur interne du serveur" (some message)⟩⟩
    | .ok uid =>
      let o := self.agoraService.generateViewerToken build now body.channelName (.num uid)
      match o.result with
      | .ok tokenData =>
        ⟨o.calls, ⟨200, .token tokenData "Token spectateur généré avec succès"⟩⟩
      | .error message =>
        ⟨o.calls, ⟨500, .failure "Erreur interne du serveur" (some message)⟩⟩

/-- The handler `generateHostToken(req, res)` on `req.body`. -/
def generateHostToken (self : AgoraController) (build : TokenBuilder) (now : Nat)
    (body : TokenRequestBody) : Handled :=
  if !body.channelName.truthy || !body.userId.truthy then
    ⟨[], ⟨400, .failure "Nom de canal et ID utilisateur requis" none⟩⟩
  else
    match generateUidFromString body.userId with
    | .error message => ⟨[], ⟨500, .failure "Erreur interne du serveur" (some message)⟩⟩
    | .ok uid =>
      let o := self.agoraService.generateHostToken build now body.channelName (.num uid)
      match o.result with
      | .ok tokenData =>
        ⟨o.calls, ⟨200, .token tokenData "Token hôte généré avec succès"⟩⟩
      | .error message =>
        ⟨o.calls, ⟨500, .failure "Erreur interne du serveur" (some message)⟩⟩

end AgoraController

/-- The decimal digits of a natural number, as a JavaScript string. -/
def decimalDigits (n : Nat) : JSString :=
  (Nat.toDigits 10 n).flatMap utf16Char

/-- ToString, as applied to a value interpolated in a template literal
(numbers of magnitude below 10^21 are written in decimal). -/
def JSVal.toJSString : JSVal → JSString
  | .undefined => utf16 "undefined"
  | .null => utf16 "null"
  | .bool true => utf16 "true"
  | .bool false => utf16 "false"
  | .num n => if n < 0 then utf16 "-" ++ decimalDigits n.natAbs else decimalDigits n.natAbs
  | .str s => s

/-- The fields of `req.body` read by `generateLiveToken`. -/
structure LiveTokenRequestBody where
  liveId : JSVal
  userId : JSVal
  role : JSVal
  deriving DecidableEq, Repr

/-- The fields of `req.body` read by `refreshToken`. -/
structure RefreshRequestBody where
  channelName : JSVal
  userId : JSVal
  role : JSVal
  deriving DecidableEq, Repr

/-- What `joinLive` reads of the request: `req.params.liveId` and
`req.user?.id` (`undefined` when there is no user). -/
structure LiveRequest where
  liveId : JSVal
  userId : JSVal
  deriving DecidableEq, Repr

/-- A call of a method of `this.supabaseService`, with its `liveId`. -/
inductive SupabaseCall where
  | getLiveById (liveId : JSVal)
  | incrementViewerCount (liveId : JSVal)
  | decrementViewerCount (liveId : JSVal)
  | endLive (liveId : JSVal)
  deriving DecidableEq, Repr

/-- What `joinLive` did: the builder calls, the persistence calls in order,
and the response sent. -/
structure JoinHandled where
  calls : List BuilderCall
  storeCalls : List SupabaseCall
  response : Response
  deriving DecidableEq, Repr

namespace AgoraController

/-- The handler `generateLiveToken(req, res)` on `req.body`. -/
def generateLiveToken (self : AgoraController) (build : TokenBuilder) (now : Nat)
    (body : LiveTokenRequestBody) : Handled :=
  let role := defaultParam body.role (.str (utf16 "viewer"))
  if !body.liveId.truthy || !body.userId.truthy then
    ⟨[], ⟨400, .failure "Live ID et User ID requis" none⟩⟩
  else
    let channelName : JSVal := .str (utf16 "live_" ++ body.liveId.toJSString)
    match generateUidFromString body.userId with
    | .error message => ⟨[], ⟨500, .failure "Erreur interne du serveur" (some message)⟩⟩
    | .ok uid =>
      let o :=
        if role = .str (utf16 "host") ∨ role = .str (utf16 "publisher") then
          self.agoraService.generateHostToken build now channelName (.num uid)
        else
          self.agoraService.generateViewerToken build now channelName (.num uid)
      match o.result with
      | .ok tokenData =>
        ⟨o.calls, ⟨200, .liveToken tokenData
          (utf16 "Token " ++ role.toJSString ++ utf16 " généré avec succès pour live " ++
            body.liveId.toJSString)⟩⟩
      | .error message =>
        ⟨o.calls, ⟨500, .failure "Erreur interne du serveur" (some message)⟩⟩

/-- The handler `refreshToken(req, res)` on `req.body`. -/
def refreshToken (self : AgoraController) (build : TokenBuilder) (now : Nat)
    (body : RefreshRequestBody) : Handled :=
  let role := defaultParam body.role (.str (utf16 "subscriber"))
  if !body.channelName.truthy then
    ⟨[], ⟨400, .failure "Nom de canal requis" none⟩⟩
  else
    match (if body.userId.truthy then generateUidFromString body.userId else .ok 0) with
    | .error message => ⟨[], ⟨500, .failure "Erreur interne du serveur" (some message)⟩⟩
    | .ok uid =>
      let o := self.agoraService.generateRtcToken build now body.channelName (.num uid) role
        none
      match o.result with
      | .ok tokenData => ⟨o.calls, ⟨200, .token tokenData "Token renouvelé avec succès"⟩⟩
      | .error message =>
        ⟨o.calls, ⟨500, .failure "Erreur interne du serveur" (some message)⟩⟩

/-- The handler `joinLive(req, res)`.  Reading `getLiveById` of an undefined
`this.supabaseService` throws a TypeError, which the `catch` block answers. -/
def joinLive (self : AgoraController) (db : SupabaseClient) (build : TokenBuilder) (now : Nat)
    (req : LiveRequest) : JoinHandled :=
  let userId : JSVal := if req.userId.truthy then req.userId else .str (utf16 "anonymous")
  match self.supabaseService with
  | none =>
    ⟨[], [], ⟨500, .failure "Erreur interne du serveur"
      (some "Cannot read properties of undefined (reading 'getLiveById')")⟩⟩
  | some _ =>
    match SupabaseService.getLiveById db req.liveId with
    | .error message =>
      ⟨[], [.getLiveById req.liveId],
        ⟨500, .failure "Erreur interne du serveur" (some message)⟩⟩
    | .ok none =>
      ⟨[], [.getLiveById req.liveId], ⟨404, .failure "Live non trouvé ou terminé" none⟩⟩
    | .ok (some live) =>
      if !live.is_live.truthy then
        ⟨[], [.getLiveById req.liveId], ⟨404, .failure "Live non trouvé ou terminé" none⟩⟩
      else
        match (if userId ≠ .str (utf16 "anonymous") then generateUidFromString userId
          else .ok 0) with
        | .error message =>
          ⟨[], [.getLiveById req.liveId],
            ⟨500, .failure "Erreur interne du serveur" (some message)⟩⟩
        | .ok uid =>
          let o := self.agoraService.generateViewerToken build now live.agora_channel_id
            (.num uid)
          match o.result with
          | .error message =>
            ⟨o.calls, [.getLiveById req.liveId],
              ⟨500, .failure "Erreur interne du serveur" (some message)⟩⟩
          | .ok tokenData =>
            if userId ≠ .str (utf16 "anonymous") then
              match SupabaseService.incrementViewerCount db req.liveId with
              | .error message =>
                ⟨o.calls, [.getLiveById req.liveId, .incrementViewerCount req.liveId],
                  ⟨500, .failure "Erreur interne du serveur" (some message)⟩⟩
              | .ok _ =>
                ⟨o.calls, [.getLiveById req.liveId, .incrementViewerCount req.liveId],
                  ⟨200, .joined live tokenData "Token pour rejoindre le live généré"⟩⟩
            else
              ⟨o.calls, [.getLiveById req.liveId],
                ⟨200, .joined live tokenData "Token pour rejoindre le live généré"⟩⟩

/-- The body of the handler `testConfiguration(req, res)`, given what the
property read `this.agoraService.testConfiguration` yields: `none` when it is
`undefined` (calling it throws a TypeError), otherwise what the call does. -/
def testConfigurationWith (member : Option (Except String TestResult)) : Response :=
  match member with
  | none =>
    ⟨500, .failure "Erreur test configuration"
      (some "this.agoraService.testConfiguration is not a function")⟩
  | some (.error message) => ⟨500, .failure "Erreur test configuration" (some message)⟩
  | some (.ok testResult) =>
    ⟨200, .configTest testResult.success
      (if testResult.success.truthy then "Configuration Agora OK"
        else "Problème de configuration")⟩

/-- The handler `testConfiguration(req, res)`. -/
def testConfiguration (self : AgoraController) : Response :=
  testConfigurationWith self.agoraService.testConfigurationMember

/-- The handler `getConfigInfo(req, res)`, which reads `process.env`. -/
def getConfigInfo (_self : AgoraController) (env : Env) : Response :=
  let truthy (v : Option String) : Bool :=
    match v with
    | some x => !x.isEmpty
    | none => false
  ⟨200, .configInfo
    (if truthy env.AGORA_APP_ID then env.AGORA_APP_ID.getD "" else "non défini")
    (truthy env.AGORA_APP_CERTIFICATE)
    (truthy env.AGORA_APP_ID && truthy env.AGORA_APP_CERTIFICATE)
    (if truthy env.NODE_ENV then env.NODE_ENV.getD "" else "development")
    "Configuration Agora récupérée"⟩

end AgoraController

/-! ## The routes of `routes/agoraNew.js` -/

/-- A request to a token route: the caller's address `req.ip`, which is the
key of the rate limiters, and the parsed body. -/
structure TokenRequest where
  ip : String
  body : TokenRequestBody
  deriving DecidableEq, Repr

/-- A request to the live-token route. -/
structure LiveTokenRequest where
  ip : String
  body : LiveTokenRequestBody
  deriving DecidableEq, Repr

/-- `router.post('/viewer-token', validateTokenRequest, handler)`: the
validation chains record their findings on the request and call `next()`;
nothing in the route reads them, and the handler is the controller's. -/
def postViewerToken (agoraController : AgoraController) (build : TokenBuilder) (now : Nat)
    (req : TokenRequest) : Handled :=
  agoraController.generateViewerToken build now req.body

/-- `router.post('/host-token', validateTokenRequest, handler)`. -/
def postHostToken (agoraController : AgoraController) (build : TokenBuilder) (now : Nat)
    (req : TokenRequest) : Handled :=
  agoraController.generateHostToken build now req.body

/-- `router.post('/live-token', validateLiveTokenRequest, handler)`. -/
def postLiveToken (agoraController : AgoraController) (build : TokenBuilder) (now : Nat)
    (req : LiveTokenRequest) : Handled :=
  agoraController.generateLiveToken build now req.body

/-! ## The error middleware of `server.js` -/

/-- The members of a thrown error that the error middleware reads. -/
structure ThrownError where
  status : Option Nat
  message : String
  stack : String
  deriving DecidableEq, Repr

/-- The response of the error middleware; `success` is always `false`, and
`error` is `none` when the member is `undefined`. -/
structure ErrorResponse where
  status : Nat
  message : String
  error : Option String
  timestamp : Int
  deriving DecidableEq, Repr

/-- The error middleware `(err, req, res, next)` of `server.js`. -/
def errorMiddleware (env : Env) (now : Nat) (err : ThrownError) : ErrorResponse :=
  ⟨(match err.status with
    | some code => if code ≠ 0 then code else 500
    | none => 500),
    (if err.message.isEmpty then "Erreur interne du serveur" else err.message),
    (if env.NODE_ENV = some "development" then some err.stack else none),
    (now : Int)⟩

/-- The `data.uid` field of a token response, if the response carries one. -/
def Response.dataUid (r : Response) : Option JSVal :=
  match r.body with
  | .token data _ => some data.uid
  | .liveToken data _ => some data.uid
  | _ => none

/-! ## A configured service used for concrete evaluations -/

/-- An environment with both Agora variables set. -/
def sampleEnv : Env := ⟨some "app-id", some "app-certificate", none⟩

/-- The service that the constructor builds from `sampleEnv`. -/
def sampleService : AgoraTokenService := ⟨"app-id", "app-certificate", 86400⟩

/-- The controller that the constructor builds from `sampleEnv`. -/
def sampleController : AgoraController := ⟨sampleService, none⟩

/-- A token builder that always succeeds. -/
def sampleBuilder : TokenBuilder := fun _ => .ok "006-signed-token"

/-- A clock reading: 2023-11-14T22:13:20Z in milliseconds. -/
def sampleNow : Nat := 1700000000000

/-- A session id (a UUID, as the validation of the live routes expects). -/
def sampleLiveId : JSVal := .str (utf16 "123e4567-e89b-12d3-a456-426614174000")

/-- A Supabase client for which every session exists and is live, and every
remote procedure call succeeds. -/
def sampleDb : SupabaseClient :=
  ⟨fun liveId => .resolved
      (some ⟨liveId, .str (utf16 "host-1"), .bool true,
        .str (utf16 "live_" ++ liveId.toJSString)⟩) none,
    fun _ _ => .resolved .null none⟩

/-- A Supabase client whose every call is rejected. -/
def failingDb : SupabaseClient :=
  ⟨fun _ => .rejected "fetch failed", fun _ _ => .rejected "fetch failed"⟩

/-- A Supabase client whose remote procedure calls resolve with an error. -/
def erringDb : SupabaseClient :=
  ⟨fun _ => .resolved none (some "permission denied"),
    fun _ _ => .resolved .null (some "permission denied")⟩

/-- A token builder that returns a token of 64 characters. -/
def sampleLongBuilder : TokenBuilder :=
  fun _ => .ok "006a1b2c3d4e5f60718293a4b5c6d7e8f9a0b1c2d3e4f5061728394a5b6c7d8e"

/-- An environment in production mode with both Agora variables set. -/
def productionEnv : Env := ⟨some "app-id", some "app-certificate", some "production"⟩

/-- The body of a viewer-token request for channel "room-42" by "user-7". -/
def sampleTokenBody : TokenRequestBody := ⟨.str (utf16 "room-42"), .str (utf16 "user-7")⟩

/-- The one builder call `generateRtcToken` can make on given parameters. -/
def builderCallOf (self : AgoraTokenService) (now : Nat) (channelName uid role : JSVal)
    (expireTime : Option Int) : BuilderCall :=
  ⟨self.appId, self.appCertificate, channelName, uid, AgoraTokenService.agoraRoleOf role,
    AgoraTokenService.tokenExpireTimeOf self now expireTime⟩

/-- The channel-name pattern `[A-Za-z0-9_-]`, one code unit, as in the regular
expression `/^[a-zA-Z0-9_-]+$/` of `middleware/validation.js`. -/
def isChannelChar (c : CodeUnit) : Bool :=
  (65 ≤ c.val && c.val ≤ 90) || (97 ≤ c.val && c.val ≤ 122) ||
    (48 ≤ c.val && c.val ≤ 57) || c.val == 95 || c.val == 45

/-- The string matches `[A-Za-z0-9_-]{1,64}`. -/
def matchesChannelPattern (s : JSString) : Bool :=
  decide (1 ≤ s.length) && decide (s.length ≤ 64) && s.all isChannelChar

/-! ## The rate limiter -/

/-- The options of a `RateLimiterMemory`: `points`, `duration` and
`blockDuration`, the last two in seconds. -/
structure Policy where
  points : Nat
  duration : Nat
  blockDuration : Nat
  deriving DecidableEq, Repr

/-- The options of `authLimiter` in `middleware/rateLimit.js`. -/
def authLimiter : Policy := ⟨5, 900, 900⟩

/-- The options of `tokenLimiter` in `middleware/rateLimit.js`. -/
def tokenLimiter : Policy := ⟨20, 60, 300⟩

/-- The options of `messageLimiter` in `middleware/rateLimit.js`. -/
def messageLimiter : Policy := ⟨10, 60, 120⟩

/-- The state the limiter keeps for one key. -/
structure RateLimitState where
  remainingPoints : Nat
  windowStart : Nat
  blockedUntil : Option Nat
  deriving DecidableEq, Repr

/-- The result of `consume`. -/
inductive ConsumeResult where
  | ok
  | rejected (retryAfterSeconds : Nat)
  deriving DecidableEq, Repr

/-- Modelled from the spec: the operation `consume` of the limiter (class
`RateLimiterMemory` of the package `rate-limiter-flexible`, which is not in
the source), on the state of one key at clock reading `now` seconds.  A key
without prior consumption has a full bucket and a window that starts now.  An
active block rejects with the remaining block time.  Otherwise the window is
reset to full capacity once `duration` has elapsed from `windowStart`; with
points remaining one is taken; with none the key is blocked until
`now + blockDuration` and the call is rejected with that delay. -/
def consumeState (policy : Policy) (now : Nat) (state : Option RateLimitState) :
    ConsumeResult × RateLimitState :=
  let st : RateLimitState :=
    match state with
    | some st => st
    | none => ⟨policy.points, now, none⟩
  let blocked : Bool :=
    match st.blockedUntil with
    | some blockedUntil => decide (now < blockedUntil)
    | none => false
  if blocked then (.rejected (st.blockedUntil.getD now - now), st)
  else
    let window : RateLimitState :=
      if st.windowStart + policy.duration ≤ now then ⟨policy.points, now, none⟩
      else ⟨st.remainingPoints, st.windowStart, none⟩
    if 0 < window.remainingPoints then
      (.ok, ⟨window.remainingPoints - 1, window.windowStart, none⟩)
    else
      (.rejected policy.blockDuration,
        ⟨0, window.windowStart, some (now + policy.blockDuration)⟩)

/-- The per-key states of one limiter. -/
abbrev LimiterStore := String → Option RateLimitState

/-- A limiter no key of which has consumed anything. -/
def emptyLimiter : LimiterStore := fun _ => none

/-- The call `limiter.consume(key)` at clock reading `now` seconds. -/
def consume (policy : Policy) (key : String) (now : Nat) (store : LimiterStore) :
    ConsumeResult × LimiterStore :=
  let r := consumeState policy now (store key)
  (r.1, fun k => if k = key then some r.2 else store k)

/-- Successive calls `limiter.consume(key)` at the given clock readings. -/
def consumeMany (policy : Policy) (key : String) :
    List Nat → LimiterStore → List ConsumeResult × LimiterStore
  | [], store => ([], store)
  | now :: rest, store =>
    let r := consume policy key now store
    let rs := consumeMany policy key rest r.2
    (r.1 :: rs.1, rs.2)

/-! ## The viewer counter -/

/-- The column `viewer_count` of each session, by session id. -/
abbrev CounterStore := JSVal → Int

/-- Modelled from the spec: the database procedures `increment_viewer_count`
and `decrement_viewer_count` called through `supabase.rpc`, which are not in
the source.  Increment adds one; decrement subtracts one and clamps at zero;
when the collaborator is not `available` the call is rejected and the count is
left as it was. -/
def counterRpc (available : Bool) (name : String) (liveId : JSVal) (store : CounterStore) :
    ClientOutcome JSVal × CounterStore :=
  if !available then (.rejected "fetch failed", store)
  else if name = "increment_viewer_count" then
    (.resolved .null none, fun l => if l = liveId then store l + 1 else store l)
  else if name = "decrement_viewer_count" then
    (.resolved .null none, fun l => if l = liveId then max (store l - 1) 0 else store l)
  else (.resolved .null (some "Could not find the function"), store)

/-- The Supabase client over a counter store. -/
def counterClient (available : Bool) (store : CounterStore) : SupabaseClient :=
  ⟨fun _ => .resolved none none, fun name liveId => (counterRpc available name liveId store).1⟩

/-- A join or leave event: the session id and whether the counter store is
available when the event is accounted. -/
inductive ViewerEvent where
  | increment (liveId : JSVal) (available : Bool)
  | decrement (liveId : JSVal) (available : Bool)
  deriving DecidableEq, Repr

/-- The call `incrementViewerCount(liveId)` or `decrementViewerCount(liveId)`
of one event: what it returns and the counter store afterwards. -/
def accountEvent (store : CounterStore) : ViewerEvent → Except String JSVal × CounterStore
  | .increment liveId available =>
    (SupabaseService.incrementViewerCount (counterClient available store) liveId,
      (counterRpc available "increment_viewer_count" liveId store).2)
  | .decrement liveId available =>
    (SupabaseService.decrementViewerCount (counterClient available store) liveId,
      (counterRpc available "decrement_viewer_count" liveId store).2)

/-- The counter store after a sequence of events. -/
def accountEvents (store : CounterStore) (events : List ViewerEvent) : CounterStore :=
  events.foldl (fun st e => (accountEvent st e).2) store

/-! ## The live controller -/

/-- The object `updates` that `SupabaseService.endLive` writes; `ended_at` is
the time value of the ISO text. -/
structure LiveUpdates where
  is_live : JSVal
  ended_at : Int
  deriving DecidableEq, Repr

/-- The behaviour of the external query
`from('lives').update(updates).eq('id', liveId).select().single()`. -/
abbrev UpdateQuery := JSVal → LiveUpdates → ClientOutcome (Option Live)

namespace SupabaseService

/-- `updateLive(liveId, updates)`. -/
def updateLive (update : UpdateQuery) (liveId : JSVal) (updates : LiveUpdates) :
    Except String (Option Live) :=
  match update liveId updates with
  | .resolved data none => .ok data
  | .resolved _ (some error) => .error ("Impossible de mettre à jour le live: " ++ error)
  | .rejected message => .error ("Impossible de mettre à jour le live: " ++ message)

/-- `endLive(liveId)` at clock reading `now`. -/
def endLive (update : UpdateQuery) (now : Nat) (liveId : JSVal) : Except String (Option Live) :=
  match updateLive update liveId ⟨.bool false, (now : Int)⟩ with
  | .ok data => .ok data
  | .error message => .error ("Impossible de terminer le live: " ++ message)

end SupabaseService

/-- An instance of `LiveController`; its constructor assigns
`this.supabaseService = new SupabaseService()`. -/
structure LiveController where
  supabaseService : SupabaseService
  deriving DecidableEq, Repr

/-- What `endLive` reads of the request: `req.params.id` and `req.user?.id`
(`undefined` when there is no user). -/
structure EndLiveRequest where
  id : JSVal
  userId : JSVal
  deriving DecidableEq, Repr

/-- What `endLive` did: the persistence calls in order and the response. -/
structure EndHandled where
  storeCalls : List SupabaseCall
  response : Response
  deriving DecidableEq, Repr

/-- The handler `LiveController.endLive(req, res)`. -/
def LiveController.endLive (_self : LiveController) (db : SupabaseClient)
    (update : UpdateQuery) (now : Nat) (req : EndLiveRequest) : EndHandled :=
  match SupabaseService.getLiveById db req.id with
  | .error message =>
    ⟨[.getLiveById req.id], ⟨500, .failure "Erreur interne du serveur" (some message)⟩⟩
  | .ok none => ⟨[.getLiveById req.id], ⟨404, .failure "Live non trouvé" none⟩⟩
  | .ok (some live) =>
    if live.host_id ≠ req.userId then
      ⟨[.getLiveById req.id], ⟨403, .failure "Non autorisé à terminer ce live" none⟩⟩
    else
      match SupabaseService.endLive update now req.id with
      | .error message =>
        ⟨[.getLiveById req.id, .endLive req.id],
          ⟨500, .failure "Erreur interne du serveur" (some message)⟩⟩
      | .ok endedLive =>
        ⟨[.getLiveById req.id, .endLive req.id],
          ⟨200, .liveEnded endedLive "Live terminé avec succès"⟩⟩

/-! ## The validation middleware of `middleware/validation.js` -/

/-- The text that the standard validators of `express-validator` check:
`undefined` and `null` become the empty string, other values their string
form. -/
def validatorString : JSVal → JSString
  | .undefined => []
  | .null => []
  | v => v.toJSString

/-- The number of variation selectors U+FE0E and U+FE0F in a string, which
`isLength` does not count. -/
def presentationSequences (s : JSString) : Nat :=
  s.countP (fun c => c.val == 65039 || c.val == 65038)

/-- The number of matches of `/[\uD800-\uDBFF][\uDC00-\uDFFF]/g` in a string:
a surrogate pair counts as one character for `isLength`. -/
def surrogatePairs : JSString → Nat
  | [] => 0
  | [_] => 0
  | a :: b :: rest =>
    if (55296 ≤ a.val && a.val ≤ 56319) && (56320 ≤ b.val && b.val ≤ 57343) then
      surrogatePairs rest + 1
    else surrogatePairs (b :: rest)

/-- The validator `isLength` with options `min` and `max`. -/
def isLength (min max : Nat) (s : JSString) : Bool :=
  let len := s.length - presentationSequences s - surrogatePairs s
  decide (min ≤ len) && decide (len ≤ max)

/-- The validator `matches(/^[a-zA-Z0-9_-]+$/)`. -/
def matchesChannelRegex (s : JSString) : Bool :=
  !s.isEmpty && s.all isChannelChar

/-- The chain `body('channelName').isLength(...).withMessage(...)
.matches(...).withMessage(...)` of `validateTokenRequest`: every validator of
the chain runs and each failure adds its message. -/
def channelNameErrors (value : JSVal) : List ValidationError :=
  (if isLength 1 64 (validatorString value) then []
    else [⟨"channelName", "Nom de canal requis (1-64 caractères)"⟩]) ++
  (if matchesChannelRegex (validatorString value) then []
    else [⟨"channelName",
      "Le nom de canal ne peut contenir que des lettres, chiffres, tirets et underscores"⟩])

/-- The chain `body('userId').optional().isString().withMessage(...)`. -/
def userIdErrors (value : JSVal) : List ValidationError :=
  if value = .undefined then []
  else if value.isString then []
  else [⟨"userId", "ID utilisateur doit être une chaîne"⟩]

/-- The value of `validationResult(req)` after the chains of
`validateTokenRequest` have run. -/
def validationResult (body : TokenRequestBody) : List ValidationError :=
  channelNameErrors body.channelName ++ userIdErrors body.userId

/-- What a middleware did: whether it called `next()`, and the response it
sent, if any. -/
structure Passed where
  calledNext : Bool
  response : Option Response
  deriving DecidableEq, Repr

/-- The middleware `handleValidationErrors`. -/
def handleValidationErrors (errors : List ValidationError) : Passed :=
  if !errors.isEmpty then ⟨false, some ⟨400, .invalid "Données invalides" errors⟩⟩
  else ⟨true, none⟩

/-- The array `validateTokenRequest` of `middleware/validation.js`, run on a
request body: the two chains, then `handleValidationErrors`. -/
def validateTokenRequest (body : TokenRequestBody) : Passed :=
  handleValidationErrors (validationResult body)

/-! ## The rate-limit middleware of `middleware/rateLimit.js` -/

/-- The member `msBeforeNext` of the object with which `limiter.consume`
rejects, in milliseconds. -/
structure RateLimiterRes where
  msBeforeNext : Nat
  deriving DecidableEq, Repr

/-- The value of `Math.round(ms / 1000)` for a non-negative integer `ms`:
the nearest integer, a half rounded up. -/
def roundSeconds (ms : Nat) : Nat :=
  (ms + 500) / 1000

/-- What the rate-limit middleware did: whether it called `next()`, the
header `Retry-After` it set, and the response it sent. -/
structure RateLimitHandled where
  calledNext : Bool
  retryAfterHeader : Option JSString
  response : Option Response
  deriving DecidableEq, Repr

/-- The middleware returned by `rateLimitMiddleware(limiter, errorMessage)`,
given what `await limiter.consume(key)` does: it resolves, or rejects with a
`RateLimiterRes`. -/
def rateLimitMiddleware (errorMessage : String) (consumed : Except RateLimiterRes Unit) :
    RateLimitHandled :=
  match consumed with
  | .ok _ => ⟨true, none, none⟩
  | .error rejRes =>
    let secs : Nat :=
      if roundSeconds rejRes.msBeforeNext ≠ 0 then roundSeconds rejRes.msBeforeNext else 1
    ⟨false, some (decimalDigits secs), some ⟨429, .rateLimited errorMessage (secs : Int)⟩⟩

/-- The middleware `tokenRateLimit`. -/
def tokenRateLimit (consumed : Except RateLimiterRes Unit) : RateLimitHandled :=
  rateLimitMiddleware "Trop de demandes de tokens. Veuillez patienter." consumed

/-! ## Session identifiers -/

/-- A hexadecimal digit or a hyphen. -/
def isUuidChar (c : CodeUnit) : Bool :=
  (48 ≤ c.val && c.val ≤ 57) || (97 ≤ c.val && c.val ≤ 102) ||
    (65 ≤ c.val && c.val ≤ 70) || c.val == 45

/-- A string of 36 characters, each a hexadecimal digit or a hyphen, as the
canonical text of a UUID is. -/
def isCanonicalUuid (s : JSString) : Bool :=
  s.length == 36 && s.all isUuidChar

/-- An update query that returns the session as ended. -/
def sampleUpdate : UpdateQuery :=
  fun liveId updates =>
    .resolved (some ⟨liveId, .str (utf16 "host-1"), updates.is_live,
      .str (utf16 "live_" ++ liveId.toJSString)⟩) none

/-- A live controller. -/
def sampleLiveController : LiveController := ⟨⟨false⟩⟩

/-! ## Creating a session -/

/-- The behaviour of the external query
`from('lives').insert(liveData).select().single()`, on the columns of
`liveData` that are modelled. -/
abbrev InsertQuery := Live → ClientOutcome (Option Live)

/-- `SupabaseService.createLiveStream(liveData)`. -/
def SupabaseService.createLiveStream (insert : InsertQuery) (liveData : Live) :
    Except String (Option Live) :=
  match insert liveData with
  | .resolved data none => .ok data
  | .resolved _ (some error) => .error ("Impossible de créer le live: " ++ error)
  | .rejected message => .error ("Impossible de créer le live: " ++ message)

/-- What `createLive` reads of the request and tests: `req.body.title` and
`req.user?.id`; the other members of the body are only copied into the row. -/
structure CreateLiveRequest where
  title : JSVal
  userId : JSVal
  deriving DecidableEq, Repr

namespace AgoraController

/-- What the call `uuidv4()` in `createLive` yields.  `AgoraController.js`
requires `../services/agoraTokenService` and `express-validator` and declares
nothing else: the identifier `uuidv4` has no binding, so evaluating it throws
a ReferenceError, here `none`. -/
def uuidv4 : Option JSString :=
  none

/-- The body of the handler `createLive(req, res)`, given what the call
`uuidv4()` yields: `none` when it throws a ReferenceError, otherwise the
identifier it returns. -/
def createLiveWith (self : AgoraController) (uuid : Option JSString) (insert : InsertQuery)
    (build : TokenBuilder) (now : Nat) (req : CreateLiveRequest) : Handled :=
  if !req.title.truthy || !req.userId.truthy then
    ⟨[], ⟨400, .failure "Titre et authentification requis" none⟩⟩
  else
    match uuid with
    | none => ⟨[], ⟨500, .failure "Erreur interne du serveur" (some "uuidv4 is not defined")⟩⟩
    | some liveId =>
      let channelName : JSVal := .str (utf16 "live_" ++ liveId)
      match generateUidFromString req.userId with
      | .error message => ⟨[], ⟨500, .failure "Erreur interne du serveur" (some message)⟩⟩
      | .ok uid =>
        let o := self.agoraService.generateHostToken build now channelName (.num uid)
        match o.result with
        | .error message =>
          ⟨o.calls, ⟨500, .failure "Erreur interne du serveur" (some message)⟩⟩
        | .ok agoraTokenData =>
          match self.supabaseService with
          | none =>
            ⟨o.calls, ⟨500, .failure "Erreur interne du serveur"
              (some "Cannot read properties of undefined (reading 'createLiveStream')")⟩⟩
          | some _ =>
            match SupabaseService.createLiveStream insert
              ⟨.str liveId, req.userId, .bool true, channelName⟩ with
            | .error message =>
              ⟨o.calls, ⟨500, .failure "Erreur interne du serveur" (some message)⟩⟩
            | .ok createdLive =>
              ⟨o.calls, ⟨201, .created createdLive agoraTokenData "Live créé avec succès"⟩⟩

/-- The handler `createLive(req, res)`. -/
def createLive (self : AgoraController) (insert : InsertQuery) (build : TokenBuilder)
    (now : Nat) (req : CreateLiveRequest) : Handled :=
  createLiveWith self uuidv4 insert build now req

end AgoraController

/-- An insert query that returns the row it was given. -/
def sampleInsert : InsertQuery := fun liveData => .resolved (some liveData) none

/-! ## The rolling hash as the specification words it -/

/-- Reduction modulo 2^32 into the signed range [-2^31, 2^31 - 1]. -/
def wrapSigned32 (x : Int) : Int :=
  (x + 2147483648) % 4294967296 - 2147483648

/-- The accumulator of the specification continued from `acc`:
`acc_i = (31 * acc_(i-1) + c_i)` wrapped into the signed 32-bit range. -/
def specAccFrom (acc : Int) : List CodeUnit → Int
  | [] => acc
  | c :: cs => specAccFrom (wrapSigned32 (31 * acc + (c.val : Int))) cs

/-- The accumulator `acc_n` of the specification, started from `acc_0 = 0`. -/
def specAcc (s : JSString) : Int :=
  specAccFrom 0 s

/-- The derived actor id of the specification: `abs(acc_n) mod (2^31 - 1)`. -/
def specDerive (s : JSString) : Int :=
  |specAcc s| % 2147483647

/-! ## Lemmas on the 32-bit operators -/

theorem toInt32_lower (x : Int) : -2147483648 ≤ toInt32 x := by
  unfold toInt32
  simp only
  split <;> omega

theorem toInt32_upper (x : Int) : toInt32 x ≤ 2147483647 := by
  unfold toInt32
  simp only
  split <;> omega

theorem toInt32_eq_wrapSigned32 (x : Int) : toInt32 x = wrapSigned32 x := by
  unfold toInt32 wrapSigned32
  simp only
  split <;> omega

theorem toInt32_of_range (x : Int) (h1 : -2147483648 ≤ x) (h2 : x ≤ 2147483647) :
    toInt32 x = x := by
  unfold toInt32
  simp only
  split <;> omega

theorem int_land_self (x : Int) : Int.land x x = x := by
  cases x with
  | ofNat n => simp [Int.land]
  | negSucc n => simp [Int.land]

theorem bitAnd_self (x : Int) : bitAnd x x = toInt32 x := by
  unfold bitAnd
  exact int_land_self _

theorem shiftLeft_five (x : Int) : shiftLeft x 5 = toInt32 (toInt32 x * 32) := by
  unfold shiftLeft
  norm_num

/-- The loop body is the wrap-around multiply-by-31 step, for any integer
accumulator value. -/
theorem hashStep_eq (hash : Int) (c : CodeUnit) :
    hashStep hash c = wrapSigned32 (31 * hash + (c.val : Int)) := by
  unfold hashStep
  simp only [bitAnd_self, shiftLeft_five]
  rw [toInt32_eq_wrapSigned32]
  generalize (c.val : Int) = k
  rw [toInt32_eq_wrapSigned32 (toInt32 hash * 32), toInt32_eq_wrapSigned32 hash]
  unfold wrapSigned32
  omega

theorem hashStep_range (hash : Int) (c : CodeUnit) :
    -2147483648 ≤ hashStep hash c ∧ hashStep hash c ≤ 2147483647 := by
  unfold hashStep
  simp only [bitAnd_self]
  exact ⟨toInt32_lower _, toInt32_upper _⟩

theorem foldl_hashStep_range (s : JSString) (h : Int)
    (h1 : -2147483648 ≤ h) (h2 : h ≤ 2147483647) :
    -2147483648 ≤ s.foldl hashStep h ∧ s.foldl hashStep h ≤ 2147483647 := by
  induction s generalizing h with
  | nil => exact ⟨h1, h2⟩
  | cons c cs ih =>
    simp only [List.foldl_cons]
    exact ih _ (hashStep_range h c).1 (hashStep_range h c).2

theorem hashLoop_range (s : JSString) :
    -2147483648 ≤ hashLoop s ∧ hashLoop s ≤ 2147483647 :=
  foldl_hashStep_range s 0 (by norm_num) (by norm_num)

theorem absMod_eq (h : Int) : absMod h = |h| % 2147483647 := by
  unfold absMod
  rw [Int.tmod_eq_emod (by positivity) (by norm_num), Int.natCast_natAbs]

theorem absMod_range (h : Int) : 0 ≤ absMod h ∧ absMod h ≤ 2147483646 := by
  rw [absMod_eq]
  constructor
  · exact Int.emod_nonneg _ (by norm_num)
  · have := Int.emod_lt_of_pos |h| (show (0 : Int) < 2147483647 by norm_num)
    omega

theorem uid_nonneg (s : JSString) :
    0 ≤ AgoraTokenService.generateUidFromUserId (.str s) := by
  unfold AgoraTokenService.generateUidFromUserId
  split
  · norm_num
  · exact (absMod_range _).1

theorem foldl_hashStep_eq_spec (s : JSString) (h : Int) :
    s.foldl hashStep h = specAccFrom h s := by
  induction s generalizing h with
  | nil => rfl
  | cons c cs ih =>
    simp only [List.foldl_cons, specAccFrom]
    rw [hashStep_eq]
    exact ih _

theorem hashLoop_eq_specAcc (s : JSString) : hashLoop s = specAcc s :=
  foldl_hashStep_eq_spec s 0

/-! ## The identity hash: range and refinement -/

set_option maxRecDepth 8000 in
/-- C1: for every string `s`, both `generateUidFromUserId(s)` and
`generateUidFromString(s)` return an integer between 0 and 2^31 - 2; this
covers an accumulator that ends at -2^31, which the string "Gycxe~" reaches
and which yields the id 1. -/
theorem uid_range (s : JSString) :
    (0 ≤ AgoraTokenService.generateUidFromUserId (.str s) ∧
      AgoraTokenService.generateUidFromUserId (.str s) ≤ 2147483646) ∧
    (∃ u, AgoraController.generateUidFromString (.str s) = .ok u ∧
      0 ≤ u ∧ u ≤ 2147483646) ∧
    absMod (-2147483648) = 1 ∧
    hashLoop (utf16 "Gycxe~") = -2147483648 ∧
    AgoraTokenService.generateUidFromUserId (.str (utf16 "Gycxe~")) = 1 ∧
    AgoraController.generateUidFromString (.str (utf16 "Gycxe~")) = .ok 1 := by
  refine ⟨?_, ⟨absMod (hashLoop s), rfl, absMod_range _⟩, by decide, by decide, by decide,
    by decide⟩
  unfold AgoraTokenService.generateUidFromUserId
  split
  · norm_num
  · exact absMod_range _

/-- C2: the loop body is exactly the wrap-around multiply-by-31 step, the
accumulator after the loop is `acc_n` of the specification, and
`generateUidFromUserId(s)` equals `abs(acc_n) mod (2^31 - 1)` for every string
`s`, the empty one included. -/
theorem uid_refines_spec (s : JSString) :
    (∀ (hash : Int) (c : CodeUnit),
      hashStep hash c = wrapSigned32 (31 * hash + (c.val : Int))) ∧
    hashLoop s = specAcc s ∧
    AgoraTokenService.generateUidFromUserId (.str s) = specDerive s := by
  refine ⟨hashStep_eq, hashLoop_eq_specAcc s, ?_⟩
  unfold AgoraTokenService.generateUidFromUserId specDerive
  cases s with
  | nil => simp [JSVal.truthy, specAcc, specAccFrom]
  | cons c cs =>
    simp only [JSVal.truthy, List.isEmpty_cons, Bool.not_false, Bool.not_true]
    rw [← hashLoop_eq_specAcc, absMod_eq]
    rfl

/-! ## Lemmas on `generateRtcToken` -/

theorem generateRtcTokenTry_calls (self : AgoraTokenService) (build : TokenBuilder) (now : Nat)
    (channelName uid role : JSVal) (expireTime : Option Int) :
    (self.generateRtcTokenTry build now channelName uid role expireTime).1 = [] ∨
    (self.generateRtcTokenTry build now channelName uid role expireTime).1 =
      [builderCallOf self now channelName uid role expireTime] := by
  unfold AgoraTokenService.generateRtcTokenTry builderCallOf
  split
  · exact Or.inl rfl
  · split
    · exact Or.inl rfl
    · simp only
      split
      · exact Or.inr rfl
      · split <;> exact Or.inr rfl

theorem generateRtcTokenTry_ok (self : AgoraTokenService) (build : TokenBuilder) (now : Nat)
    (channelName uid role : JSVal) (expireTime : Option Int) (v : TokenResult)
    (h : (self.generateRtcTokenTry build now channelName uid role expireTime).2 = .ok v) :
    (self.generateRtcTokenTry build now channelName uid role expireTime).1 =
      [builderCallOf self now channelName uid role expireTime] ∧
    build (builderCallOf self now channelName uid role expireTime) = .ok v.token ∧
    v.appId = self.appId ∧ v.channelName = channelName ∧ v.uid = uid ∧ v.role = role ∧
    v.expireTime = AgoraTokenService.tokenExpireTimeOf self now expireTime ∧
    channelName.truthy = true ∧ channelName.isString = true ∧
    uid.isNumber = true ∧ uid.ltZero = false := by
  unfold AgoraTokenService.generateRtcTokenTry builderCallOf at *
  split at h
  · simp at h
  · rename_i hc
    split at h
    · simp at h
    · rename_i hu
      simp only at h ⊢
      split at h
      · simp at h
      · rename_i token hb
        split at h
        · simp at h
        · simp only [Except.ok.injEq] at h
          subst h
          simp only [Bool.or_eq_true, Bool.not_eq_true', not_or, Bool.not_eq_false] at hc hu
          rw [hb]
          simp [hc.1, hc.2, hu.1, hu.2]

theorem generateRtcToken_calls_eq (self : AgoraTokenService) (build : TokenBuilder) (now : Nat)
    (channelName uid role : JSVal) (expireTime : Option Int) :
    (self.generateRtcToken build now channelName uid role expireTime).calls =
      (self.generateRtcTokenTry build now channelName (defaultParam uid (.num 0))
        (defaultParam role (.str (utf16 "audience"))) expireTime).1 := by
  unfold AgoraTokenService.generateRtcToken
  simp only
  split <;> rfl

theorem generateRtcToken_ok_iff (self : AgoraTokenService) (build : TokenBuilder) (now : Nat)
    (channelName uid role : JSVal) (expireTime : Option Int) (v : TokenResult) :
    (self.generateRtcToken build now channelName uid role expireTime).result = .ok v ↔
      (self.generateRtcTokenTry build now channelName (defaultParam uid (.num 0))
        (defaultParam role (.str (utf16 "audience"))) expireTime).2 = .ok v := by
  unfold AgoraTokenService.generateRtcToken
  simp only
  split
  · rename_i w hw
    rw [hw]
  · rename_i m hm
    rw [hm]
    simp

theorem generateRtcToken_error (self : AgoraTokenService) (build : TokenBuilder) (now : Nat)
    (channelName uid role : JSVal) (expireTime : Option Int) (m : String)
    (h : (self.generateRtcTokenTry build now channelName (defaultParam uid (.num 0))
        (defaultParam role (.str (utf16 "audience"))) expireTime).2 = .error m) :
    (self.generateRtcToken build now channelName uid role expireTime).result =
      .error ("Impossible de générer le token: " ++ m) := by
  unfold AgoraTokenService.generateRtcToken
  simp only
  rw [h]

theorem generateUidFromUserId_num (n : Int) :
    AgoraTokenService.generateUidFromUserId (.num n) = 0 := by
  unfold AgoraTokenService.generateUidFromUserId
  split
  · rfl
  · rfl

/-- Whatever identity the request carries, a credential returned by the
controller's `generateViewerToken` has `uid` 0: the service hashes the numeric
uid it is handed as if it were the identity string. -/
theorem controller_viewer_uid_zero (self : AgoraController) (build : TokenBuilder) (now : Nat)
    (body : TokenRequestBody) (u : JSVal)
    (h : (self.generateViewerToken build now body).response.dataUid = some u) :
    u = .num 0 := by
  unfold AgoraController.generateViewerToken at h
  split at h
  · simp [Response.dataUid] at h
  · split at h
    · simp [Response.dataUid] at h
    · rename_i uid _
      simp only at h
      split at h
      · rename_i tokenData hr
        simp only [Response.dataUid, Option.some.injEq] at h
        unfold AgoraTokenService.generateViewerToken at hr
        simp only [generateUidFromUserId_num] at hr
        rw [generateRtcToken_ok_iff] at hr
        have := (generateRtcTokenTry_ok _ _ _ _ _ _ _ _ hr).2.2.2.2.1
        rw [← h, this]
        rfl
      · simp [Response.dataUid] at h

theorem constructor_ok (env : Env) (self : AgoraTokenService)
    (h : AgoraTokenService.constructor env = .ok self) :
    env.AGORA_APP_ID = some self.appId ∧ env.AGORA_APP_CERTIFICATE = some self.appCertificate ∧
    self.appId ≠ "" ∧ self.appCertificate ≠ "" ∧ self.defaultExpireTime = 86400 := by
  unfold AgoraTokenService.constructor at h
  split at h
  · rename_i appId appCertificate h1 h2
    split at h
    · simp at h
    · rename_i hne
      simp only [Except.ok.injEq] at h
      subst h
      simp only [Bool.or_eq_true, String.isEmpty_iff, not_or] at hne
      exact ⟨h1, h2, hne.1, hne.2, by norm_num⟩
  · simp at h

theorem generateRtcTokenTry_success (self : AgoraTokenService) (build : TokenBuilder) (now : Nat)
    (c : JSString) (n : Int) (role : JSVal) (expireTime : Option Int) (t : String)
    (hc : c ≠ []) (hn : 0 ≤ n)
    (hb : build (builderCallOf self now (.str c) (.num n) role expireTime) = .ok t)
    (hlo : -maxTimeValue ≤ AgoraTokenService.tokenExpireTimeOf self now expireTime * 1000)
    (hhi : AgoraTokenService.tokenExpireTimeOf self now expireTime * 1000 ≤ maxTimeValue) :
    (self.generateRtcTokenTry build now (.str c) (.num n) role expireTime).2 =
      .ok ⟨t, self.appId, .str c, .num n, role,
        AgoraTokenService.tokenExpireTimeOf self now expireTime,
        AgoraTokenService.tokenExpireTimeOf self now expireTime * 1000, (now : Int)⟩ := by
  unfold builderCallOf at hb
  unfold AgoraTokenService.generateRtcTokenTry
  have h1 : (!(JSVal.str c).truthy || !(JSVal.str c).isString) = false := by
    cases c with
    | nil => exact absurd rfl hc
    | cons a as => rfl
  have h2 : (!(JSVal.num n).isNumber || (JSVal.num n).ltZero) = false := by
    simp [JSVal.isNumber, JSVal.ltZero, hn]
  simp only [h1, h2, Bool.false_eq_true, if_false, hb, toISOString, hlo, hhi, and_self, if_true]

theorem tokenExpireTimeOf_none (self : AgoraTokenService) (now : Nat) :
    AgoraTokenService.tokenExpireTimeOf self now none =
      (now : Int) / 1000 + self.defaultExpireTime := rfl

theorem default_expiry_in_range (now : Nat)
    (hclock : ((now : Int) / 1000 + 86400) * 1000 ≤ maxTimeValue) :
    -maxTimeValue ≤ ((now : Int) / 1000 + 86400) * 1000 ∧
      ((now : Int) / 1000 + 86400) * 1000 ≤ maxTimeValue := by
  refine ⟨?_, hclock⟩
  unfold maxTimeValue
  omega

theorem generateRtcToken_calls_role (self : AgoraTokenService) (build : TokenBuilder)
    (now : Nat) (channelName uid role : JSVal) (expireTime : Option Int) (call : BuilderCall)
    (h : call ∈ (self.generateRtcToken build now channelName uid role expireTime).calls) :
    call.role = AgoraTokenService.agoraRoleOf (defaultParam role (.str (utf16 "audience"))) := by
  rw [generateRtcToken_calls_eq] at h
  rcases generateRtcTokenTry_calls self build now channelName (defaultParam uid (.num 0))
    (defaultParam role (.str (utf16 "audience"))) expireTime with h0 | h1
  · rw [h0] at h
    simp at h
  · rw [h1] at h
    simp only [List.mem_singleton] at h
    rw [h]
    rfl

theorem agoraRoleOf_str (r : JSString) :
    (AgoraTokenService.agoraRoleOf (.str r) = RtcRole.PUBLISHER ↔ r = utf16 "publisher") ∧
    (AgoraTokenService.agoraRoleOf (.str r) = RtcRole.SUBSCRIBER ↔ r ≠ utf16 "publisher") := by
  unfold AgoraTokenService.agoraRoleOf
  by_cases h : r = utf16 "publisher"
  · simp [h]
  · simp [h]

theorem generateRtcTokenTry_bad_channel (self : AgoraTokenService) (build : TokenBuilder)
    (now : Nat) (channelName uid role : JSVal) (expireTime : Option Int)
    (h : channelName.truthy = false ∨ channelName.isString = false) :
    self.generateRtcTokenTry build now channelName uid role expireTime =
      ([], .error "Le nom du canal est requis et doit être une chaîne") := by
  unfold AgoraTokenService.generateRtcTokenTry
  have hc : (!channelName.truthy || !channelName.isString) = true := by
    rcases h with h | h <;> simp [h]
  simp only [hc, if_true]

theorem generateRtcTokenTry_bad_uid (self : AgoraTokenService) (build : TokenBuilder)
    (now : Nat) (channelName uid role : JSVal) (expireTime : Option Int)
    (hc : channelName.truthy = true ∧ channelName.isString = true)
    (h : uid.isNumber = false ∨ uid.ltZero = true) :
    self.generateRtcTokenTry build now channelName uid role expireTime =
      ([], .error "UID doit être un nombre positif ou 0") := by
  unfold AgoraTokenService.generateRtcTokenTry
  have h1 : (!channelName.truthy || !channelName.isString) = false := by
    simp [hc.1, hc.2]
  have h2 : (!uid.isNumber || uid.ltZero) = true := by
    rcases h with h | h <;> simp [h]
  simp only [h1, h2, Bool.false_eq_true, if_false, if_true]

theorem generateRtcToken_of_try_error (self : AgoraTokenService) (build : TokenBuilder)
    (now : Nat) (channelName uid role : JSVal) (expireTime : Option Int) (m : String)
    (h : self.generateRtcTokenTry build now channelName (defaultParam uid (.num 0))
        (defaultParam role (.str (utf16 "audience"))) expireTime = ([], .error m)) :
    (self.generateRtcToken build now channelName uid role expireTime).result =
      .error ("Impossible de générer le token: " ++ m) ∧
    (self.generateRtcToken build now channelName uid role expireTime).calls = [] := by
  constructor
  · exact generateRtcToken_error _ _ _ _ _ _ _ _ (by rw [h])
  · rw [generateRtcToken_calls_eq, h]

theorem tokenExpireTimeOf_explicit (self : AgoraTokenService) (now : Nat) (e : Int)
    (he : e ≠ 0) : AgoraTokenService.tokenExpireTimeOf self now (some e) = e := by
  unfold AgoraTokenService.tokenExpireTimeOf
  simp [he]

/-- A non-zero explicit `expireTime` is returned verbatim as the credential's
expiry timestamp; the clock reading is not added to it. -/
theorem explicit_expiry_verbatim (self : AgoraTokenService) (build : TokenBuilder) (now : Nat)
    (channelName uid role : JSVal) (e : Int) (he : e ≠ 0) (v : TokenResult)
    (h : (self.generateRtcToken build now channelName uid role (some e)).result = .ok v) :
    v.expireTime = e := by
  rw [generateRtcToken_ok_iff] at h
  have := (generateRtcTokenTry_ok _ _ _ _ _ _ _ _ h).2.2.2.2.2.2.1
  rw [this, tokenExpireTimeOf_explicit self now e he]

/-! ## Credential construction -/

set_option maxRecDepth 8000 in
/-- C3 (the code departs from the claim): for the request body
`channelName = "room-42"`, `userId = "user-7"` the actor id derived from the
identity is 836031819, yet the credential returned by the controller's
`generateViewerToken` and by its `generateHostToken` carries `uid` 0. -/
theorem controller_token_uid_user7 :
    AgoraController.constructor sampleEnv = .ok sampleController ∧
    AgoraController.generateUidFromString (.str (utf16 "user-7")) = .ok 836031819 ∧
    (sampleController.generateViewerToken sampleBuilder sampleNow
      ⟨.str (utf16 "room-42"), .str (utf16 "user-7")⟩).response.dataUid = some (.num 0) ∧
    (sampleController.generateHostToken sampleBuilder sampleNow
      ⟨.str (utf16 "room-42"), .str (utf16 "user-7")⟩).response.dataUid = some (.num 0) := by
  refine ⟨by decide, by decide, by decide, by decide⟩

/-- C4: on a service built by the constructor, with a builder that succeeds
and a clock whose reading plus 24 hours is still a valid date,
`generateViewerToken(c, s)` and `generateHostToken(c, s)` both succeed for
every non-empty channel string `c` and identity string `s`; both results have
`channelName = c` and `uid = generateUidFromUserId(s)`, and the roles are
'audience' and 'publisher', which differ. -/
theorem service_viewer_host_tokens (env : Env) (self : AgoraTokenService)
    (hcfg : AgoraTokenService.constructor env = .ok self)
    (build : TokenBuilder) (hb : ∀ call, ∃ t, build call = .ok t)
    (now : Nat) (hclock : ((now : Int) / 1000 + 86400) * 1000 ≤ maxTimeValue)
    (c s : JSString) (hc : c ≠ []) :
    ∃ v h,
      (self.generateViewerToken build now (.str c) (.str s)).result = .ok v ∧
      (self.generateHostToken build now (.str c) (.str s)).result = .ok h ∧
      v.channelName = .str c ∧ h.channelName = .str c ∧
      v.uid = .num (AgoraTokenService.generateUidFromUserId (.str s)) ∧
      h.uid = .num (AgoraTokenService.generateUidFromUserId (.str s)) ∧
      v.role = .str (utf16 "audience") ∧ h.role = .str (utf16 "publisher") ∧
      v.role ≠ h.role := by
  have hd := (constructor_ok env self hcfg).2.2.2.2
  have hr := default_expiry_in_range now hclock
  have hu := (uid_nonneg s)
  obtain ⟨t1, ht1⟩ := hb (builderCallOf self now (.str c)
    (.num (AgoraTokenService.generateUidFromUserId (.str s))) (.str (utf16 "audience")) none)
  obtain ⟨t2, ht2⟩ := hb (builderCallOf self now (.str c)
    (.num (AgoraTokenService.generateUidFromUserId (.str s))) (.str (utf16 "publisher")) none)
  have e1 := generateRtcTokenTry_success self build now c _ _ none t1 hc hu ht1
    (by rw [tokenExpireTimeOf_none, hd]; exact hr.1)
    (by rw [tokenExpireTimeOf_none, hd]; exact hr.2)
  have e2 := generateRtcTokenTry_success self build now c _ _ none t2 hc hu ht2
    (by rw [tokenExpireTimeOf_none, hd]; exact hr.1)
    (by rw [tokenExpireTimeOf_none, hd]; exact hr.2)
  refine ⟨_, _, (generateRtcToken_ok_iff _ _ _ _ _ _ _ _).2 e1,
    (generateRtcToken_ok_iff _ _ _ _ _ _ _ _).2 e2, rfl, rfl, rfl, rfl, rfl, rfl, ?_⟩
  simp only [ne_eq, JSVal.str.injEq]
  decide

set_option maxRecDepth 8000 in
/-- C4 at the scenario of the specification: channel "room-42", identity
"user-7". -/
theorem service_viewer_host_tokens_witness :
    AgoraTokenService.constructor sampleEnv = .ok sampleService ∧
    ∃ v h,
      (sampleService.generateViewerToken sampleBuilder sampleNow (.str (utf16 "room-42"))
        (.str (utf16 "user-7"))).result = .ok v ∧
      (sampleService.generateHostToken sampleBuilder sampleNow (.str (utf16 "room-42"))
        (.str (utf16 "user-7"))).result = .ok h ∧
      v.channelName = .str (utf16 "room-42") ∧ h.channelName = .str (utf16 "room-42") ∧
      v.uid = .num (AgoraTokenService.generateUidFromUserId (.str (utf16 "user-7"))) ∧
      h.uid = .num (AgoraTokenService.generateUidFromUserId (.str (utf16 "user-7"))) ∧
      v.role = .str (utf16 "audience") ∧ h.role = .str (utf16 "publisher") ∧
      v.role ≠ h.role :=
  ⟨by decide,
    service_viewer_host_tokens sampleEnv sampleService (by decide) sampleBuilder
      (fun _ => ⟨_, rfl⟩) sampleNow (by decide) (utf16 "room-42") (utf16 "user-7")
      (by decide)⟩

/-- C5: whenever `generateRtcToken` succeeds on a role string `r`, it made
exactly one builder call, whose privilege is PUBLISHER if and only if `r` is
exactly 'publisher' and SUBSCRIBER otherwise, and the returned `role` field is
`r`; every builder call of `generateHostToken` carries PUBLISHER and every
builder call of `generateViewerToken` carries SUBSCRIBER. -/
theorem role_preserved (self : AgoraTokenService) (build : TokenBuilder) (now : Nat) :
    (∀ (channelName uid : JSVal) (r : JSString) (expireTime : Option Int) (v : TokenResult),
      (self.generateRtcToken build now channelName uid (.str r) expireTime).result = .ok v →
      (∃ call,
        (self.generateRtcToken build now channelName uid (.str r) expireTime).calls = [call] ∧
        (call.role = RtcRole.PUBLISHER ↔ r = utf16 "publisher") ∧
        (call.role = RtcRole.SUBSCRIBER ↔ r ≠ utf16 "publisher")) ∧
      v.role = .str r) ∧
    (∀ (channelName userId : JSVal) (call : BuilderCall),
      call ∈ (self.generateHostToken build now channelName userId).calls →
      call.role = RtcRole.PUBLISHER) ∧
    (∀ (channelName userId : JSVal) (call : BuilderCall),
      call ∈ (self.generateViewerToken build now channelName userId).calls →
      call.role = RtcRole.SUBSCRIBER) := by
  refine ⟨?_, ?_, ?_⟩
  · intro channelName uid r expireTime v h
    have hcalls := generateRtcToken_calls_eq self build now channelName uid (.str r) expireTime
    rw [generateRtcToken_ok_iff] at h
    have hok := generateRtcTokenTry_ok _ _ _ _ _ _ _ _ h
    refine ⟨⟨_, hcalls.trans hok.1, ?_, ?_⟩, hok.2.2.2.2.2.1⟩
    · exact (agoraRoleOf_str r).1
    · exact (agoraRoleOf_str r).2
  · intro channelName userId call h
    have := generateRtcToken_calls_role _ _ _ _ _ _ _ _ h
    rw [this]
    decide
  · intro channelName userId call h
    have := generateRtcToken_calls_role _ _ _ _ _ _ _ _ h
    rw [this]
    decide

set_option maxRecDepth 8000 in
/-- C5 at concrete calls: a successful `generateRtcToken` with role
'publisher', and the builder calls of `generateHostToken` and
`generateViewerToken` for channel "room-42" and identity "user-7". -/
theorem role_preserved_witness :
    ((∃ call,
        (sampleService.generateRtcToken sampleBuilder sampleNow (.str (utf16 "room-42"))
          (.num 7) (.str (utf16 "publisher")) none).calls = [call] ∧
        (call.role = RtcRole.PUBLISHER ↔ utf16 "publisher" = utf16 "publisher") ∧
        (call.role = RtcRole.SUBSCRIBER ↔ utf16 "publisher" ≠ utf16 "publisher")) ∧
      (⟨"006-signed-token", "app-id", .str (utf16 "room-42"), .num 7,
        .str (utf16 "publisher"), 1700086400, 1700086400000, 1700000000000⟩ :
          TokenResult).role = .str (utf16 "publisher")) ∧
    (builderCallOf sampleService sampleNow (.str (utf16 "room-42")) (.num 836031819)
      (.str (utf16 "publisher")) none).role = RtcRole.PUBLISHER ∧
    (builderCallOf sampleService sampleNow (.str (utf16 "room-42")) (.num 836031819)
      (.str (utf16 "audience")) none).role = RtcRole.SUBSCRIBER :=
  ⟨(role_preserved sampleService sampleBuilder sampleNow).1 (.str (utf16 "room-42")) (.num 7)
      (utf16 "publisher") none _ (by decide),
    (role_preserved sampleService sampleBuilder sampleNow).2.1 (.str (utf16 "room-42"))
      (.str (utf16 "user-7")) _ (by decide),
    (role_preserved sampleService sampleBuilder sampleNow).2.2 (.str (utf16 "room-42"))
      (.str (utf16 "user-7")) _ (by decide)⟩

/-- C6: on a service built by the constructor, every successful
`generateRtcToken` call without an `expireTime` (or with `null`) at clock
reading `now` milliseconds returns `expireTime = floor(now / 1000) + 86400`,
so the expiry minus the issue time is exactly 86400 seconds. -/
theorem expiry_default_window (env : Env) (self : AgoraTokenService)
    (hcfg : AgoraTokenService.constructor env = .ok self)
    (build : TokenBuilder) (now : Nat) (channelName uid role : JSVal) (v : TokenResult)
    (h : (self.generateRtcToken build now channelName uid role none).result = .ok v) :
    v.expireTime = (now : Int) / 1000 + 86400 ∧
    v.expireTime - (now : Int) / 1000 = 86400 := by
  have hd := (constructor_ok env self hcfg).2.2.2.2
  rw [generateRtcToken_ok_iff] at h
  have he := (generateRtcTokenTry_ok _ _ _ _ _ _ _ _ h).2.2.2.2.2.2.1
  rw [tokenExpireTimeOf_none, hd] at he
  rw [he]
  omega

set_option maxRecDepth 8000 in
/-- C6 at a concrete call: channel "room-42", uid 7, role and expiry omitted,
clock reading 1700000000000 ms. -/
theorem expiry_default_window_witness :
    (sampleService.generateRtcToken sampleBuilder sampleNow (.str (utf16 "room-42"))
      (.num 7) .undefined none).result =
      .ok ⟨"006-signed-token", "app-id", .str (utf16 "room-42"), .num 7,
        .str (utf16 "audience"), 1700086400, 1700086400000, 1700000000000⟩ ∧
    ((1700086400 : Int) = ((sampleNow : Nat) : Int) / 1000 + 86400 ∧
      (1700086400 : Int) - ((sampleNow : Nat) : Int) / 1000 = 86400) :=
  ⟨by decide,
    expiry_default_window sampleEnv sampleService (by decide) sampleBuilder sampleNow
      (.str (utf16 "room-42")) (.num 7) .undefined
      ⟨"006-signed-token", "app-id", .str (utf16 "room-42"), .num 7,
        .str (utf16 "audience"), 1700086400, 1700086400000, 1700000000000⟩ (by decide)⟩

/-! ## Explicit expiry -/

set_option maxRecDepth 8000 in
/-- C7 (the code departs from the claim): `generateRtcToken('room-42', 7,
'audience', 3600)` at clock reading 1700000000000 ms succeeds with
`expireTime = 3600`, not `floor(now / 1000) + 3600 = 1700003600`: the argument
documented as a duration is used as the expiry timestamp, and the credential
is already expired at issuance. -/
theorem explicit_expiry_user_3600 :
    (sampleService.generateRtcToken sampleBuilder sampleNow (.str (utf16 "room-42"))
      (.num 7) (.str (utf16 "audience")) (some 3600)).result =
      .ok ⟨"006-signed-token", "app-id", .str (utf16 "room-42"), .num 7,
        .str (utf16 "audience"), 3600, 3600000, 1700000000000⟩ ∧
    (3600 : Int) ≠ ((sampleNow : Nat) : Int) / 1000 + 3600 ∧
    AgoraTokenService.isTokenValid sampleNow 3600 = false := by
  refine ⟨by decide, by decide, by decide⟩

/-- On a service built by the constructor, a credential returned by
`generateRtcToken` called without an `expireTime` (or with `null` or 0) has
`expireTime = floor(now / 1000) + 86400`, which is after the clock reading, and
`isTokenValid` is true on it; `isTokenValid(e)` is true exactly when
`e > floor(now / 1000)`. -/
theorem default_expiry_after_issue (env : Env) (self : AgoraTokenService)
    (hcfg : AgoraTokenService.constructor env = .ok self)
    (build : TokenBuilder) (now : Nat) (channelName uid role : JSVal)
    (expireTime : Option Int) (hdef : expireTime = none ∨ expireTime = some 0)
    (v : TokenResult)
    (h : (self.generateRtcToken build now channelName uid role expireTime).result = .ok v) :
    v.expireTime = (now : Int) / 1000 + 86400 ∧
    v.expireTime > (now : Int) / 1000 ∧
    AgoraTokenService.isTokenValid now v.expireTime = true ∧
    (∀ e : Int, AgoraTokenService.isTokenValid now e = true ↔ e > (now : Int) / 1000) := by
  have hd := (constructor_ok env self hcfg).2.2.2.2
  rw [generateRtcToken_ok_iff] at h
  have he := (generateRtcTokenTry_ok _ _ _ _ _ _ _ _ h).2.2.2.2.2.2.1
  have hte : AgoraTokenService.tokenExpireTimeOf self now expireTime =
      (now : Int) / 1000 + 86400 := by
    rcases hdef with h0 | h0 <;> subst h0 <;>
      simp [AgoraTokenService.tokenExpireTimeOf, hd]
  rw [hte] at he
  have hv : v.expireTime > (now : Int) / 1000 := by rw [he]; omega
  have hiff : ∀ e : Int, AgoraTokenService.isTokenValid now e = true ↔
      e > (now : Int) / 1000 := by
    intro e
    simp [AgoraTokenService.isTokenValid]
  exact ⟨he, hv, (hiff _).2 hv, hiff⟩

/-- A credential returned for a non-zero explicit `expireTime` is valid at
issuance exactly when that value, taken as a timestamp, is after the clock
reading: the duration passed is not added to the clock. -/
theorem explicit_expiry_valid_iff (self : AgoraTokenService) (build : TokenBuilder) (now : Nat)
    (channelName uid role : JSVal) (e : Int) (he : e ≠ 0) (v : TokenResult)
    (h : (self.generateRtcToken build now channelName uid role (some e)).result = .ok v) :
    (v.expireTime > (now : Int) / 1000 ↔ e > (now : Int) / 1000) ∧
    (AgoraTokenService.isTokenValid now v.expireTime = true ↔ e > (now : Int) / 1000) := by
  have hv := explicit_expiry_verbatim self build now channelName uid role e he v h
  rw [hv]
  simp [AgoraTokenService.isTokenValid]

set_option maxRecDepth 8000 in
/-- C8 (the code departs from the claim): `generateRtcToken('room-42', 7,
'audience', 3600)`, a validity of one hour, at clock reading 1700000000000 ms
succeeds and returns `expireTime = 3600`, which is not greater than
`floor(now / 1000) = 1700000000`, and `isTokenValid` is false on it; the same
call without the last argument returns 1700086400, on which `isTokenValid` is
true. -/
theorem expired_at_issue_user_3600 :
    (∃ v, (sampleService.generateRtcToken sampleLongBuilder sampleNow
        (.str (utf16 "room-42")) (.num 7) (.str (utf16 "audience")) (some 3600)).result =
        .ok v ∧
      v.expireTime = 3600 ∧
      ¬ (v.expireTime > ((sampleNow : Nat) : Int) / 1000) ∧
      AgoraTokenService.isTokenValid sampleNow v.expireTime = false) ∧
    (∃ v, (sampleService.generateRtcToken sampleLongBuilder sampleNow
        (.str (utf16 "room-42")) (.num 7) (.str (utf16 "audience")) none).result = .ok v ∧
      v.expireTime = 1700086400 ∧
      v.expireTime > ((sampleNow : Nat) : Int) / 1000 ∧
      AgoraTokenService.isTokenValid sampleNow v.expireTime = true) := by
  refine ⟨⟨⟨"006a1b2c3d4e5f60718293a4b5c6d7e8f9a0b1c2d3e4f5061728394a5b6c7d8e", "app-id",
      .str (utf16 "room-42"), .num 7, .str (utf16 "audience"), 3600, 3600000,
      1700000000000⟩, by decide, rfl, by decide, by decide⟩,
    ⟨⟨"006a1b2c3d4e5f60718293a4b5c6d7e8f9a0b1c2d3e4f5061728394a5b6c7d8e", "app-id",
      .str (utf16 "room-42"), .num 7, .str (utf16 "audience"), 1700086400, 1700086400000,
      1700000000000⟩, by decide, rfl, by decide, by decide⟩⟩

/-! ## Parameter validation -/

set_option maxRecDepth 20000 in
/-- C9 fails as stated: the channel names "room 42!" (a space and an
exclamation mark) and "a" repeated 65 times do not match
`[A-Za-z0-9_-]{1,64}`, yet `generateRtcToken` succeeds on both and hands them
to the token builder. -/
theorem channel_pattern_not_enforced :
    matchesChannelPattern (utf16 "room 42!") = false ∧
    (sampleService.generateRtcToken sampleBuilder sampleNow (.str (utf16 "room 42!"))
      (.num 7) (.str (utf16 "audience")) none).result =
      .ok ⟨"006-signed-token", "app-id", .str (utf16 "room 42!"), .num 7,
        .str (utf16 "audience"), 1700086400, 1700086400000, 1700000000000⟩ ∧
    matchesChannelPattern (List.replicate 65 97) = false ∧
    (sampleService.generateRtcToken sampleBuilder sampleNow (.str (List.replicate 65 97))
      (.num 7) (.str (utf16 "audience")) none).result =
      .ok ⟨"006-signed-token", "app-id", .str (List.replicate 65 97), .num 7,
        .str (utf16 "audience"), 1700086400, 1700086400000, 1700000000000⟩ := by
  refine ⟨by decide, by decide, by decide, by decide⟩

/-- C9 as amended: `generateRtcToken` throws, with the channel message and
without calling the builder, for every `channelName` that is falsy (the empty
string included) or not a string; it checks neither length nor characters, so
for every non-empty string, a non-negative numeric uid, a builder that
succeeds on the call and an expiry that is a valid date, it succeeds and
returns that `channelName`. -/
theorem channel_check (self : AgoraTokenService) (build : TokenBuilder) (now : Nat)
    (role : JSVal) (expireTime : Option Int) :
    (∀ (channelName uid : JSVal),
      channelName.truthy = false ∨ channelName.isString = false →
      (self.generateRtcToken build now channelName uid role expireTime).result =
        .error ("Impossible de générer le token: " ++
          "Le nom du canal est requis et doit être une chaîne") ∧
      (self.generateRtcToken build now channelName uid role expireTime).calls = []) ∧
    (∀ (c : JSString) (n : Int) (t : String), c ≠ [] → 0 ≤ n →
      build (builderCallOf self now (.str c) (.num n)
        (defaultParam role (.str (utf16 "audience"))) expireTime) = .ok t →
      -maxTimeValue ≤ AgoraTokenService.tokenExpireTimeOf self now expireTime * 1000 →
      AgoraTokenService.tokenExpireTimeOf self now expireTime * 1000 ≤ maxTimeValue →
      ∃ v, (self.generateRtcToken build now (.str c) (.num n) role expireTime).result = .ok v ∧
        v.channelName = .str c) := by
  constructor
  · intro channelName uid h
    exact generateRtcToken_of_try_error _ _ _ _ _ _ _ _
      (generateRtcTokenTry_bad_channel _ _ _ _ _ _ _ h)
  · intro c n t hc hn hb hlo hhi
    have e := generateRtcTokenTry_success self build now c n _ expireTime t hc hn hb hlo hhi
    exact ⟨_, (generateRtcToken_ok_iff _ _ _ _ _ _ _ _).2 e, rfl⟩

set_option maxRecDepth 8000 in
/-- C9 as amended, at the empty channel name and at the channel name
"room-42". -/
theorem channel_check_witness :
    ((sampleService.generateRtcToken sampleBuilder sampleNow (.str []) (.num 7)
        (.str (utf16 "audience")) none).result =
        .error ("Impossible de générer le token: " ++
          "Le nom du canal est requis et doit être une chaîne") ∧
      (sampleService.generateRtcToken sampleBuilder sampleNow (.str []) (.num 7)
        (.str (utf16 "audience")) none).calls = []) ∧
    ∃ v, (sampleService.generateRtcToken sampleBuilder sampleNow (.str (utf16 "room-42"))
        (.num 7) (.str (utf16 "audience")) none).result = .ok v ∧
      v.channelName = .str (utf16 "room-42") :=
  ⟨(channel_check sampleService sampleBuilder sampleNow (.str (utf16 "audience")) none).1
      (.str []) (.num 7) (Or.inl rfl),
    (channel_check sampleService sampleBuilder sampleNow (.str (utf16 "audience")) none).2
      (utf16 "room-42") 7 "006-signed-token" (by decide) (by decide) rfl (by decide)
      (by decide)⟩

/-- C10: whenever the parameter `uid` (an omitted argument takes the default
0) is not a number or is a negative number, `generateRtcToken` throws an error
whose message begins with 'Impossible de générer le token: ', and the token
builder is not invoked. -/
theorem uid_check (self : AgoraTokenService) (build : TokenBuilder) (now : Nat)
    (channelName uid role : JSVal) (expireTime : Option Int)
    (h : (defaultParam uid (.num 0)).isNumber = false ∨
      (defaultParam uid (.num 0)).ltZero = true) :
    (∃ m, (self.generateRtcToken build now channelName uid role expireTime).result =
      .error ("Impossible de générer le token: " ++ m)) ∧
    (self.generateRtcToken build now channelName uid role expireTime).calls = [] := by
  by_cases hc : channelName.truthy = true ∧ channelName.isString = true
  · have := generateRtcToken_of_try_error _ _ _ _ _ _ _ _
      (generateRtcTokenTry_bad_uid self build now channelName _
        (defaultParam role (.str (utf16 "audience"))) expireTime hc h)
    exact ⟨⟨_, this.1⟩, this.2⟩
  · have hc2 : channelName.truthy = false ∨ channelName.isString = false := by
      by_cases ht : channelName.truthy = true
      · right
        by_cases hs : channelName.isString = true
        · exact absurd ⟨ht, hs⟩ hc
        · simpa using hs
      · left
        simpa using ht
    have := generateRtcToken_of_try_error _ _ _ _ _ _ _ _
      (generateRtcTokenTry_bad_channel self build now channelName
        (defaultParam uid (.num 0)) (defaultParam role (.str (utf16 "audience")))
        expireTime hc2)
    exact ⟨⟨_, this.1⟩, this.2⟩

set_option maxRecDepth 8000 in
/-- C10 at a uid that is a string and at the uid -1, for channel "room-42". -/
theorem uid_check_witness :
    ((∃ m, (sampleService.generateRtcToken sampleBuilder sampleNow (.str (utf16 "room-42"))
        (.str (utf16 "user-7")) (.str (utf16 "audience")) none).result =
        .error ("Impossible de générer le token: " ++ m)) ∧
      (sampleService.generateRtcToken sampleBuilder sampleNow (.str (utf16 "room-42"))
        (.str (utf16 "user-7")) (.str (utf16 "audience")) none).calls = []) ∧
    ((∃ m, (sampleService.generateRtcToken sampleBuilder sampleNow (.str (utf16 "room-42"))
        (.num (-1)) (.str (utf16 "audience")) none).result =
        .error ("Impossible de générer le token: " ++ m)) ∧
      (sampleService.generateRtcToken sampleBuilder sampleNow (.str (utf16 "room-42"))
        (.num (-1)) (.str (utf16 "audience")) none).calls = []) :=
  ⟨uid_check sampleService sampleBuilder sampleNow (.str (utf16 "room-42"))
      (.str (utf16 "user-7")) (.str (utf16 "audience")) none (Or.inl rfl),
    uid_check sampleService sampleBuilder sampleNow (.str (utf16 "room-42"))
      (.num (-1)) (.str (utf16 "audience")) none (Or.inr (by decide))⟩

/-! ## Construction of the service -/

/-- C11: constructing `AgoraTokenService` throws if and only if
`AGORA_APP_ID` or `AGORA_APP_CERTIFICATE` is unset or empty; when both are
non-empty it succeeds with `appId` and `appCertificate` taken from the
environment and `defaultExpireTime = 86400`. -/
theorem service_constructor_spec (env : Env) :
    ((∃ message, AgoraTokenService.constructor env = .error message) ↔
      (env.AGORA_APP_ID = none ∨ env.AGORA_APP_ID = some "" ∨
        env.AGORA_APP_CERTIFICATE = none ∨ env.AGORA_APP_CERTIFICATE = some "")) ∧
    (∀ appId appCertificate : String,
      env.AGORA_APP_ID = some appId → env.AGORA_APP_CERTIFICATE = some appCertificate →
      appId ≠ "" → appCertificate ≠ "" →
      AgoraTokenService.constructor env = .ok ⟨appId, appCertificate, 86400⟩) := by
  obtain ⟨id, cert, mode⟩ := env
  unfold AgoraTokenService.constructor
  cases id with
  | none => simp
  | some a =>
    cases cert with
    | none => simp
    | some c =>
      by_cases ha : a = ""
      · simp [ha, String.isEmpty_iff]
      · by_cases hc : c = ""
        · simp [hc, String.isEmpty_iff]
        · simp [ha, hc, String.isEmpty_iff]

/-- C11 at an environment with both variables set: construction succeeds
with the values of the environment. -/
theorem service_constructor_spec_witness :
    AgoraTokenService.constructor sampleEnv = .ok ⟨"app-id", "app-certificate", 86400⟩ :=
  (service_constructor_spec sampleEnv).2 "app-id" "app-certificate" rfl rfl (by decide)
    (by decide)

/-! ## The token-issuance limiter -/

theorem consumeState_fresh (policy : Policy) (now : Nat) (hp : 0 < policy.points) :
    consumeState policy now none = (.ok, ⟨policy.points - 1, now, none⟩) := by
  unfold consumeState
  by_cases hd : now + policy.duration ≤ now
  · simp [hd, hp]
  · simp [hd, hp]

theorem consumeState_in_window (policy : Policy) (now r w : Nat)
    (hw : now < w + policy.duration) :
    consumeState policy now (some ⟨r + 1, w, none⟩) = (.ok, ⟨r, w, none⟩) := by
  unfold consumeState
  have hd : ¬ (w + policy.duration ≤ now) := by omega
  simp [hd]

theorem consumeState_exhausted (policy : Policy) (now w : Nat)
    (hw : now < w + policy.duration) :
    consumeState policy now (some ⟨0, w, none⟩) =
      (.rejected policy.blockDuration, ⟨0, w, some (now + policy.blockDuration)⟩) := by
  unfold consumeState
  have hd : ¬ (w + policy.duration ≤ now) := by omega
  simp [hd]

theorem consumeState_after_block (policy : Policy) (now r w b : Nat)
    (hp : 0 < policy.points) (hb : b ≤ now) (hw : w + policy.duration ≤ now) :
    consumeState policy now (some ⟨r, w, some b⟩) = (.ok, ⟨policy.points - 1, now, none⟩) := by
  unfold consumeState
  have hnb : ¬ (now < b) := by omega
  simp [hnb, hw, hp]

theorem consume_key (policy : Policy) (key : String) (now : Nat) (store : LimiterStore) :
    (consume policy key now store).1 = (consumeState policy now (store key)).1 ∧
    (consume policy key now store).2 key = some (consumeState policy now (store key)).2 := by
  unfold consume
  simp

theorem consumeMany_in_window (policy : Policy) (key : String) (w : Nat) (ts : List Nat)
    (hts : ∀ t ∈ ts, t < w + policy.duration) (r : Nat) (store : LimiterStore)
    (hst : store key = some ⟨r + ts.length, w, none⟩) :
    (consumeMany policy key ts store).1 = List.replicate ts.length .ok ∧
    (consumeMany policy key ts store).2 key = some ⟨r, w, none⟩ := by
  induction ts generalizing store with
  | nil => exact ⟨rfl, by simpa [consumeMany] using hst⟩
  | cons t rest ih =>
    have ht : t < w + policy.duration := hts t (List.mem_cons_self _ _)
    have hk := consume_key policy key t store
    rw [hst] at hk
    have hstep : consumeState policy t (some ⟨r + (t :: rest).length, w, none⟩) =
        (.ok, ⟨r + rest.length, w, none⟩) := by
      have := consumeState_in_window policy t (r + rest.length) w ht
      simpa [Nat.add_assoc] using this
    rw [hstep] at hk
    have hrest := ih (fun u hu => hts u (List.mem_cons_of_mem _ hu))
      (consume policy key t store).2 hk.2
    simp only [consumeMany, List.length_cons, List.replicate_succ]
    exact ⟨by rw [hk.1, hrest.1], hrest.2⟩

/-- C12: with the options of `tokenLimiter` (20 points, 60 s, block 300 s)
and a key without prior consumption, 20 calls of `consume` made within the
window that the first call opens all succeed, a 21st call within that window
is rejected with a retry-after of 300 seconds, and a call made once the block
has expired succeeds. -/
theorem token_limiter_scenario (key : String) (store : LimiterStore)
    (hfresh : store key = none) (t0 : Nat) (ts : List Nat) (hlen : ts.length = 19)
    (hts : ∀ t ∈ ts, t < t0 + 60) (t21 : Nat) (hge : t0 ≤ t21) (h21 : t21 < t0 + 60)
    (tAfter : Nat) (hafter : t21 + 300 ≤ tAfter) :
    (consumeMany tokenLimiter key (t0 :: ts) store).1 = List.replicate 20 .ok ∧
    (consume tokenLimiter key t21 (consumeMany tokenLimiter key (t0 :: ts) store).2).1 =
      .rejected 300 ∧
    (consume tokenLimiter key tAfter
      (consume tokenLimiter key t21
        (consumeMany tokenLimiter key (t0 :: ts) store).2).2).1 = .ok := by
  have h0 := consume_key tokenLimiter key t0 store
  rw [hfresh, consumeState_fresh tokenLimiter t0 (by decide)] at h0
  have hst : (consume tokenLimiter key t0 store).2 key = some ⟨0 + ts.length, t0, none⟩ := by
    rw [h0.2, hlen]
    rfl
  have hmany := consumeMany_in_window tokenLimiter key t0 ts hts 0 _ hst
  have h1 := consume_key tokenLimiter key t21
    (consumeMany tokenLimiter key (t0 :: ts) store).2
  have hfinal : (consumeMany tokenLimiter key (t0 :: ts) store).2 key = some ⟨0, t0, none⟩ := by
    simpa [consumeMany] using hmany.2
  rw [hfinal, consumeState_exhausted tokenLimiter t21 t0 h21] at h1
  have h2 := consume_key tokenLimiter key tAfter
    (consume tokenLimiter key t21 (consumeMany tokenLimiter key (t0 :: ts) store).2).2
  rw [h1.2, consumeState_after_block tokenLimiter tAfter 0 t0 _ (by decide)
    (by simp only [tokenLimiter]; omega) (by simp only [tokenLimiter]; omega)] at h2
  refine ⟨?_, h1.1, h2.1⟩
  simp only [consumeMany, h0.1, hmany.1, hlen]
  rfl

/-- C12 for 21 calls at clock reading 0 and a further call at 300 seconds. -/
theorem token_limiter_scenario_witness :
    (consumeMany tokenLimiter "203.0.113.7" (0 :: List.replicate 19 0) emptyLimiter).1 =
      List.replicate 20 .ok ∧
    (consume tokenLimiter "203.0.113.7" 0
      (consumeMany tokenLimiter "203.0.113.7" (0 :: List.replicate 19 0) emptyLimiter).2).1 =
      .rejected 300 ∧
    (consume tokenLimiter "203.0.113.7" 300
      (consume tokenLimiter "203.0.113.7" 0
        (consumeMany tokenLimiter "203.0.113.7" (0 :: List.replicate 19 0)
          emptyLimiter).2).2).1 = .ok :=
  token_limiter_scenario "203.0.113.7" emptyLimiter rfl 0 (List.replicate 19 0) (by decide)
    (by decide) 0 (by decide) (by decide) 300 (by decide)

/-! ## The token routes and the limiter -/

set_option maxRecDepth 20000 in
/-- C13 (the code departs from the claim): 21 calls of `consume` on
`tokenLimiter` for the key "203.0.113.7" at one instant end in a rejection, but
the routes POST /viewer-token, /host-token and /live-token do not consult the
limiter: a request from that address is answered 200 with a credential after
one builder call, whatever was answered before. -/
theorem token_routes_not_rate_limited :
    (consumeMany tokenLimiter "203.0.113.7" (List.replicate 21 0) emptyLimiter).1.getLast? =
      some (.rejected 300) ∧
    ((postViewerToken sampleController sampleBuilder sampleNow
        ⟨"203.0.113.7", ⟨.str (utf16 "room-42"), .str (utf16 "user-7")⟩⟩).response.status = 200 ∧
      (postViewerToken sampleController sampleBuilder sampleNow
        ⟨"203.0.113.7", ⟨.str (utf16 "room-42"), .str (utf16 "user-7")⟩⟩).calls.length = 1) ∧
    ((postHostToken sampleController sampleBuilder sampleNow
        ⟨"203.0.113.7", ⟨.str (utf16 "room-42"), .str (utf16 "user-7")⟩⟩).response.status = 200 ∧
      (postHostToken sampleController sampleBuilder sampleNow
        ⟨"203.0.113.7", ⟨.str (utf16 "room-42"), .str (utf16 "user-7")⟩⟩).calls.length = 1) ∧
    ((postLiveToken sampleController sampleBuilder sampleNow
        ⟨"203.0.113.7", ⟨sampleLiveId, .str (utf16 "user-7"), .str (utf16 "viewer")⟩⟩
        ).response.status = 200 ∧
      (postLiveToken sampleController sampleBuilder sampleNow
        ⟨"203.0.113.7", ⟨sampleLiveId, .str (utf16 "user-7"), .str (utf16 "viewer")⟩⟩
        ).calls.length = 1) := by
  refine ⟨by decide, ⟨by decide, by decide⟩, ⟨by decide, by decide⟩, ⟨by decide, by decide⟩⟩

/-! ## Viewer accounting -/

theorem incrementViewerCount_ok (db : SupabaseClient) (liveId : JSVal) :
    ∃ v, SupabaseService.incrementViewerCount db liveId = .ok v := by
  unfold SupabaseService.incrementViewerCount
  split
  · exact ⟨_, rfl⟩
  · exact ⟨_, rfl⟩

theorem decrementViewerCount_ok (db : SupabaseClient) (liveId : JSVal) :
    ∃ v, SupabaseService.decrementViewerCount db liveId = .ok v := by
  unfold SupabaseService.decrementViewerCount
  split
  · exact ⟨_, rfl⟩
  · exact ⟨_, rfl⟩

/-- C14: whatever the remote procedure call of the counter store does,
`incrementViewerCount` and `decrementViewerCount` return a value and never
throw: the store's `data` when the call resolves without an error, and `false`
when it resolves with an error or is rejected. -/
theorem viewer_count_calls_never_throw (db : SupabaseClient) (liveId : JSVal) :
    ((∃ v, SupabaseService.incrementViewerCount db liveId = .ok v) ∧
      (∀ data, db.rpc "increment_viewer_count" liveId = .resolved data none →
        SupabaseService.incrementViewerCount db liveId = .ok data) ∧
      (∀ data error, db.rpc "increment_viewer_count" liveId = .resolved data (some error) →
        SupabaseService.incrementViewerCount db liveId = .ok (.bool false)) ∧
      (∀ message, db.rpc "increment_viewer_count" liveId = .rejected message →
        SupabaseService.incrementViewerCount db liveId = .ok (.bool false))) ∧
    ((∃ v, SupabaseService.decrementViewerCount db liveId = .ok v) ∧
      (∀ data, db.rpc "decrement_viewer_count" liveId = .resolved data none →
        SupabaseService.decrementViewerCount db liveId = .ok data) ∧
      (∀ data error, db.rpc "decrement_viewer_count" liveId = .resolved data (some error) →
        SupabaseService.decrementViewerCount db liveId = .ok (.bool false)) ∧
      (∀ message, db.rpc "decrement_viewer_count" liveId = .rejected message →
        SupabaseService.decrementViewerCount db liveId = .ok (.bool false))) := by
  refine ⟨⟨incrementViewerCount_ok db liveId, ?_, ?_, ?_⟩,
    ⟨decrementViewerCount_ok db liveId, ?_, ?_, ?_⟩⟩
  · intro data h
    simp [SupabaseService.incrementViewerCount, SupabaseService.viewerCountTry, h]
  · intro data error h
    simp [SupabaseService.incrementViewerCount, SupabaseService.viewerCountTry, h]
  · intro message h
    simp [SupabaseService.incrementViewerCount, SupabaseService.viewerCountTry, h]
  · intro data h
    simp [SupabaseService.decrementViewerCount, SupabaseService.viewerCountTry, h]
  · intro data error h
    simp [SupabaseService.decrementViewerCount, SupabaseService.viewerCountTry, h]
  · intro message h
    simp [SupabaseService.decrementViewerCount, SupabaseService.viewerCountTry, h]

/-- C14 at a store that answers, a store that answers with an error and a
store whose call is rejected. -/
theorem viewer_count_calls_never_throw_witness :
    SupabaseService.incrementViewerCount sampleDb sampleLiveId = .ok .null ∧
    SupabaseService.incrementViewerCount erringDb sampleLiveId = .ok (.bool false) ∧
    SupabaseService.decrementViewerCount failingDb sampleLiveId = .ok (.bool false) :=
  ⟨(viewer_count_calls_never_throw sampleDb sampleLiveId).1.2.1 .null rfl,
    (viewer_count_calls_never_throw erringDb sampleLiveId).1.2.2.1 .null "permission denied"
      rfl,
    (viewer_count_calls_never_throw failingDb sampleLiveId).2.2.2.2 "fetch failed" rfl⟩

theorem joinLive_constructed (env : Env) (self : AgoraController)
    (hcfg : AgoraController.constructor env = .ok self) (db : SupabaseClient)
    (build : TokenBuilder) (now : Nat) (req : LiveRequest) :
    self.joinLive db build now req =
      ⟨[], [], ⟨500, .failure "Erreur interne du serveur"
        (some "Cannot read properties of undefined (reading 'getLiveById')")⟩⟩ := by
  unfold AgoraController.constructor at hcfg
  split at hcfg
  · simp only [Except.ok.injEq] at hcfg
    subst hcfg
    rfl
  · simp at hcfg

theorem service_generateViewerToken_num (self : AgoraTokenService) (build : TokenBuilder)
    (now : Nat) (channelName : JSVal) (n : Int) :
    self.generateViewerToken build now channelName (.num n) =
      self.generateRtcToken build now channelName (.num 0) (.str (utf16 "audience")) none := by
  unfold AgoraTokenService.generateViewerToken
  simp only [generateUidFromUserId_num]

/-- With `supabaseService` assigned, `joinLive` does what is expected of it:
for an authenticated caller and a session that exists and is live it reads the
session, builds a viewer credential, calls `incrementViewerCount(liveId)` once
and answers 200. -/
theorem joinLive_with_store (self : AgoraController) (svc : SupabaseService)
    (hs : self.supabaseService = some svc) (hd : self.agoraService.defaultExpireTime = 86400)
    (db : SupabaseClient) (build : TokenBuilder) (hb : ∀ call, ∃ t, build call = .ok t)
    (now : Nat) (hclock : ((now : Int) / 1000 + 86400) * 1000 ≤ maxTimeValue)
    (liveId : JSVal) (u c : JSString) (live : Live)
    (hu : u ≠ []) (hanon : u ≠ utf16 "anonymous")
    (hdb : db.single liveId = .resolved (some live) none)
    (hlive : live.is_live.truthy = true) (hch : live.agora_channel_id = .str c) (hc : c ≠ []) :
    ∃ tokenData,
      self.joinLive db build now ⟨liveId, .str u⟩ =
        ⟨[builderCallOf self.agoraService now (.str c) (.num 0) (.str (utf16 "audience")) none],
          [.getLiveById liveId, .incrementViewerCount liveId],
          ⟨200, .joined live tokenData "Token pour rejoindre le live généré"⟩⟩ := by
  obtain ⟨t, ht⟩ := hb (builderCallOf self.agoraService now (.str c) (.num 0)
    (.str (utf16 "audience")) none)
  have hr := default_expiry_in_range now hclock
  have e := generateRtcTokenTry_success self.agoraService build now c 0
    (.str (utf16 "audience")) none t hc (le_refl 0) ht
    (by rw [tokenExpireTimeOf_none, hd]; exact hr.1)
    (by rw [tokenExpireTimeOf_none, hd]; exact hr.2)
  have hres := (generateRtcToken_ok_iff self.agoraService build now (.str c) (.num 0)
    (.str (utf16 "audience")) none _).2 e
  have hcalls : (self.agoraService.generateRtcToken build now (.str c) (.num 0)
      (.str (utf16 "audience")) none).calls =
      [builderCallOf self.agoraService now (.str c) (.num 0) (.str (utf16 "audience")) none] :=
    (generateRtcToken_calls_eq _ _ _ _ _ _ _).trans (generateRtcTokenTry_ok _ _ _ _ _ _ _ _ e).1
  obtain ⟨v, hv⟩ := incrementViewerCount_ok db liveId
  have htruthy : (JSVal.str u).truthy = true := by
    cases u with
    | nil => exact absurd rfl hu
    | cons a as => rfl
  have hne : (JSVal.str u) ≠ .str (utf16 "anonymous") := by
    intro h
    exact hanon (JSVal.str.inj h)
  generalize hT : (⟨t, self.agoraService.appId, JSVal.str c, JSVal.num 0,
    JSVal.str (utf16 "audience"), self.agoraService.tokenExpireTimeOf now none,
    self.agoraService.tokenExpireTimeOf now none * 1000, (now : Int)⟩ : TokenResult) = tok
    at hres
  refine ⟨tok, ?_⟩
  unfold AgoraController.joinLive
  simp only [hs, SupabaseService.getLiveById, hdb, hlive, htruthy, if_true, Bool.not_true,
    Bool.false_eq_true, if_false, hne, ne_eq, not_false_eq_true,
    AgoraController.generateUidFromString, hch, service_generateViewerToken_num, hres, hcalls,
    hv]

/-! ## Joining a session -/

set_option maxRecDepth 8000 in
/-- C15 (the code departs from the claim): on the controller built by the
constructor, `joinLive` for the authenticated user "user-7" and a session that
exists and is live answers 500 and calls neither `getLiveById` nor
`incrementViewerCount`, because the constructor never assigns
`this.supabaseService`. -/
theorem join_live_without_store :
    AgoraController.constructor sampleEnv = .ok sampleController ∧
    sampleDb.single sampleLiveId =
      .resolved (some ⟨sampleLiveId, .str (utf16 "host-1"), .bool true,
        .str (utf16 "live_123e4567-e89b-12d3-a456-426614174000")⟩) none ∧
    sampleController.joinLive sampleDb sampleBuilder sampleNow
        ⟨sampleLiveId, .str (utf16 "user-7")⟩ =
      ⟨[], [], ⟨500, .failure "Erreur interne du serveur"
        (some "Cannot read properties of undefined (reading 'getLiveById')")⟩⟩ := by
  refine ⟨by decide, rfl, by decide⟩

theorem accountEvent_nonneg (store : CounterStore) (e : ViewerEvent)
    (h : ∀ l, 0 ≤ store l) : ∀ l, 0 ≤ (accountEvent store e).2 l := by
  intro l
  cases e with
  | increment liveId available =>
    cases available with
    | false => simpa [accountEvent, counterRpc] using h l
    | true =>
      simp only [accountEvent, counterRpc, Bool.not_true, Bool.false_eq_true, if_false, if_true]
      split
      · have := h l
        omega
      · exact h l
  | decrement liveId available =>
    cases available with
    | false => simpa [accountEvent, counterRpc] using h l
    | true =>
      have hname : ¬ ("decrement_viewer_count" = "increment_viewer_count") := by decide
      simp only [accountEvent, counterRpc, Bool.not_true, Bool.false_eq_true, if_false, hname,
        if_true]
      split
      · exact le_max_right _ _
      · exact h l

theorem accountEvents_nonneg (events : List ViewerEvent) (store : CounterStore)
    (h : ∀ l, 0 ≤ store l) : ∀ l, 0 ≤ accountEvents store events l := by
  induction events generalizing store with
  | nil => exact h
  | cons e rest ih =>
    simp only [accountEvents, List.foldl_cons]
    exact ih _ (accountEvent_nonneg store e h)

/-- C16: over the counter store as the specification describes it,
`decrementViewerCount(liveId)` on a session whose count is 0 leaves the count
at 0, whether or not the store is available, and every sequence of
`incrementViewerCount` and `decrementViewerCount` calls keeps every count
non-negative. -/
theorem viewer_count_never_negative :
    (∀ (store : CounterStore) (liveId : JSVal) (available : Bool), store liveId = 0 →
      (accountEvent store (.decrement liveId available)).2 liveId = 0) ∧
    (∀ (store : CounterStore) (events : List ViewerEvent), (∀ l, 0 ≤ store l) →
      ∀ l, 0 ≤ accountEvents store events l) := by
  constructor
  · intro store liveId available h0
    cases available with
    | false => simpa [accountEvent, counterRpc] using h0
    | true =>
      have hname : ¬ ("decrement_viewer_count" = "increment_viewer_count") := by decide
      simp [accountEvent, counterRpc, hname, h0]
  · intro store events h
    exact accountEvents_nonneg events store h

/-- C16 at a store with every count 0: a leave event on the sample session,
and a sequence of one join and three leaves, the last with the store
unavailable. -/
theorem viewer_count_never_negative_witness :
    (accountEvent (fun _ => 0) (.decrement sampleLiveId true)).2 sampleLiveId = 0 ∧
    0 ≤ accountEvents (fun _ => 0)
      [.increment sampleLiveId true, .decrement sampleLiveId true,
        .decrement sampleLiveId true, .decrement sampleLiveId false] sampleLiveId :=
  ⟨viewer_count_never_negative.1 (fun _ => 0) sampleLiveId true rfl,
    viewer_count_never_negative.2 (fun _ => 0)
      [.increment sampleLiveId true, .decrement sampleLiveId true,
        .decrement sampleLiveId true, .decrement sampleLiveId false]
      (fun _ => le_refl 0) sampleLiveId⟩

/-! ## Renewal and the configuration test -/

theorem refreshToken_calls_role (self : AgoraController) (build : TokenBuilder) (now : Nat)
    (body : RefreshRequestBody) (call : BuilderCall)
    (h : call ∈ (self.refreshToken build now body).calls) :
    call.role =
      AgoraTokenService.agoraRoleOf (defaultParam body.role (.str (utf16 "subscriber"))) := by
  unfold AgoraController.refreshToken at h
  simp only at h
  split at h
  · simp at h
  · split at h
    · simp at h
    · split at h
      · have := generateRtcToken_calls_role _ _ _ _ _ _ _ _ h
        rw [this]
        cases hr : body.role <;> simp [defaultParam]
      · have := generateRtcToken_calls_role _ _ _ _ _ _ _ _ h
        rw [this]
        cases hr : body.role <;> simp [defaultParam]

theorem generateLiveToken_calls_role (self : AgoraController) (build : TokenBuilder)
    (now : Nat) (body : LiveTokenRequestBody) (call : BuilderCall)
    (h : call ∈ (self.generateLiveToken build now body).calls) :
    call.role =
      (if defaultParam body.role (.str (utf16 "viewer")) = .str (utf16 "host") ∨
          defaultParam body.role (.str (utf16 "viewer")) = .str (utf16 "publisher")
        then RtcRole.PUBLISHER else RtcRole.SUBSCRIBER) := by
  unfold AgoraController.generateLiveToken at h
  simp only at h
  split at h
  · simp at h
  · split at h
    · simp at h
    · by_cases hr : defaultParam body.role (.str (utf16 "viewer")) = .str (utf16 "host") ∨
          defaultParam body.role (.str (utf16 "viewer")) = .str (utf16 "publisher")
      · simp only [hr, if_true] at h ⊢
        split at h
        · have := generateRtcToken_calls_role _ _ _ _ _ _ _ _ h
          rw [this]
          decide
        · have := generateRtcToken_calls_role _ _ _ _ _ _ _ _ h
          rw [this]
          decide
      · simp only [hr, if_false] at h ⊢
        split at h
        · have := generateRtcToken_calls_role _ _ _ _ _ _ _ _ h
          rw [this]
          decide
        · have := generateRtcToken_calls_role _ _ _ _ _ _ _ _ h
          rw [this]
          decide

set_option maxRecDepth 20000 in
/-- C17 (the code departs from the claim): for the role 'host', which
`generateLiveToken` treats as a host, `generateLiveToken` signs PUBLISHER
while `refreshToken` with that same role signs SUBSCRIBER; both answer 200. -/
theorem refresh_demotes_host :
    ((sampleController.generateLiveToken sampleBuilder sampleNow
        ⟨sampleLiveId, .str (utf16 "user-7"), .str (utf16 "host")⟩).calls.map BuilderCall.role =
        [RtcRole.PUBLISHER] ∧
      (sampleController.generateLiveToken sampleBuilder sampleNow
        ⟨sampleLiveId, .str (utf16 "user-7"), .str (utf16 "host")⟩).response.status = 200) ∧
    ((sampleController.refreshToken sampleBuilder sampleNow
        ⟨.str (utf16 "live_123e4567-e89b-12d3-a456-426614174000"), .str (utf16 "user-7"),
          .str (utf16 "host")⟩).calls.map BuilderCall.role = [RtcRole.SUBSCRIBER] ∧
      (sampleController.refreshToken sampleBuilder sampleNow
        ⟨.str (utf16 "live_123e4567-e89b-12d3-a456-426614174000"), .str (utf16 "user-7"),
          .str (utf16 "host")⟩).response.status = 200) := by
  refine ⟨⟨by decide, by decide⟩, ⟨by decide, by decide⟩⟩

set_option maxRecDepth 20000 in
/-- C18 (the code departs from the claim): with both variables configured and
a builder whose token has 64 characters, `validateConfiguration()` is true,
yet the handler `testConfiguration` answers 500: it calls
`this.agoraService.testConfiguration()`, a method the service does not
define. -/
theorem test_configuration_fails :
    AgoraController.constructor sampleEnv = .ok sampleController ∧
    sampleService.validateConfiguration sampleLongBuilder sampleNow = .bool true ∧
    sampleController.testConfiguration =
      ⟨500, .failure "Erreur test configuration"
        (some "this.agoraService.testConfiguration is not a function")⟩ := by
  refine ⟨by decide, by decide, by decide⟩

/-! ## What a response discloses -/

theorem generateUidFromString_of_truthy (v : JSVal) (h : v.truthy = true) :
    ∃ uid, AgoraController.generateUidFromString v = .ok uid := by
  cases v with
  | undefined => simp [JSVal.truthy] at h
  | null => simp [JSVal.truthy] at h
  | bool b => exact ⟨_, rfl⟩
  | num n => exact ⟨_, rfl⟩
  | str s => exact ⟨_, rfl⟩

theorem service_generateViewerToken_build_fails (self : AgoraTokenService)
    (build : TokenBuilder) (now : Nat) (c : JSString) (n : Int) (m : String) (hc : c ≠ [])
    (hfail : ∀ call, build call = .error m) :
    (self.generateViewerToken build now (.str c) (.num n)).result =
      .error ("Impossible de générer le token: " ++ m) := by
  rw [service_generateViewerToken_num]
  apply generateRtcToken_error
  unfold AgoraTokenService.generateRtcTokenTry
  have h1 : (!(JSVal.str c).truthy || !(JSVal.str c).isString) = false := by
    cases c with
    | nil => exact absurd rfl hc
    | cons a as => rfl
  simp [h1, defaultParam, JSVal.isNumber, JSVal.ltZero, hfail]

theorem generateUidFromString_nonneg (v : JSVal) (uid : Int)
    (h : AgoraController.generateUidFromString v = .ok uid) : 0 ≤ uid := by
  cases v with
  | undefined => simp [AgoraController.generateUidFromString] at h
  | null => simp [AgoraController.generateUidFromString] at h
  | bool b =>
    simp only [AgoraController.generateUidFromString, Except.ok.injEq] at h
    rw [← h]
    exact (absMod_range 0).1
  | num n =>
    simp only [AgoraController.generateUidFromString, Except.ok.injEq] at h
    rw [← h]
    exact (absMod_range 0).1
  | str s =>
    simp only [AgoraController.generateUidFromString, Except.ok.injEq] at h
    rw [← h]
    exact (absMod_range _).1

theorem generateRtcToken_build_fails (self : AgoraTokenService) (build : TokenBuilder)
    (now : Nat) (c : JSString) (n : Int) (role : JSVal) (m : String) (hc : c ≠ [])
    (hn : 0 ≤ n) (hfail : ∀ call, build call = .error m) :
    (self.generateRtcToken build now (.str c) (.num n) role none).result =
      .error ("Impossible de générer le token: " ++ m) := by
  apply generateRtcToken_error
  unfold AgoraTokenService.generateRtcTokenTry
  have h1 : (!(JSVal.str c).truthy || !(JSVal.str c).isString) = false := by
    cases c with
    | nil => exact absurd rfl hc
    | cons a as => rfl
  have h2 : ¬ (n < 0) := by omega
  simp [h1, defaultParam, JSVal.isNumber, JSVal.ltZero, hfail, h2]

theorem service_generateHostToken_build_fails (self : AgoraTokenService)
    (build : TokenBuilder) (now : Nat) (c : JSString) (n : Int) (m : String) (hc : c ≠ [])
    (hfail : ∀ call, build call = .error m) :
    (self.generateHostToken build now (.str c) (.num n)).result =
      .error ("Impossible de générer le token: " ++ m) := by
  unfold AgoraTokenService.generateHostToken
  simp only [generateUidFromUserId_num]
  exact generateRtcToken_build_fails self build now c 0 _ m hc (le_refl 0) hfail

theorem live_channel_ne_nil (x : JSString) : utf16 "live_" ++ x ≠ [] := by
  have hlive5 : utf16 "live_" = [108, 105, 118, 101, 95] := by decide
  rw [hlive5]
  simp

theorem generateViewerToken_details (self : AgoraController) (build : TokenBuilder) (now : Nat)
    (c : JSString) (userId : JSVal) (m : String) (hc : c ≠ [])
    (hfail : ∀ call, build call = .error m) :
    (self.generateViewerToken build now ⟨.str c, userId⟩).response =
      ⟨500, .failure "Erreur interne du serveur"
        (some ("Impossible de générer le token: " ++ m))⟩ := by
  have h1 : (JSVal.str c).truthy = true := by
    cases c with
    | nil => exact absurd rfl hc
    | cons a as => rfl
  unfold AgoraController.generateViewerToken
  simp only [h1, Bool.not_true, Bool.false_eq_true, if_false]
  by_cases hu : userId.truthy = true
  · obtain ⟨uid, huid⟩ := generateUidFromString_of_truthy userId hu
    simp only [hu, if_true, huid,
      service_generateViewerToken_build_fails self.agoraService build now c uid m hc hfail]
  · simp only [hu, Bool.false_eq_true, if_false,
      service_generateViewerToken_build_fails self.agoraService build now c 0 m hc hfail]

theorem generateHostToken_details (self : AgoraController) (build : TokenBuilder) (now : Nat)
    (c : JSString) (userId : JSVal) (m : String) (hc : c ≠ []) (hu : userId.truthy = true)
    (hfail : ∀ call, build call = .error m) :
    (self.generateHostToken build now ⟨.str c, userId⟩).response =
      ⟨500, .failure "Erreur interne du serveur"
        (some ("Impossible de générer le token: " ++ m))⟩ := by
  have h1 : (JSVal.str c).truthy = true := by
    cases c with
    | nil => exact absurd rfl hc
    | cons a as => rfl
  obtain ⟨uid, huid⟩ := generateUidFromString_of_truthy userId hu
  unfold AgoraController.generateHostToken
  simp only [h1, hu, Bool.not_true, Bool.or_self, Bool.false_eq_true, if_false, huid,
    service_generateHostToken_build_fails self.agoraService build now c uid m hc hfail]

theorem generateLiveToken_details (self : AgoraController) (build : TokenBuilder) (now : Nat)
    (liveId userId role : JSVal) (m : String) (hl : liveId.truthy = true)
    (hu : userId.truthy = true) (hfail : ∀ call, build call = .error m) :
    (self.generateLiveToken build now ⟨liveId, userId, role⟩).response =
      ⟨500, .failure "Erreur interne du serveur"
        (some ("Impossible de générer le token: " ++ m))⟩ := by
  obtain ⟨uid, huid⟩ := generateUidFromString_of_truthy userId hu
  have hne := live_channel_ne_nil liveId.toJSString
  unfold AgoraController.generateLiveToken
  simp only [hl, hu, Bool.not_true, Bool.or_self, Bool.false_eq_true, if_false, huid]
  by_cases hr : defaultParam role (.str (utf16 "viewer")) = .str (utf16 "host") ∨
      defaultParam role (.str (utf16 "viewer")) = .str (utf16 "publisher")
  · simp only [hr, if_true,
      service_generateHostToken_build_fails self.agoraService build now _ uid m hne hfail]
  · simp only [hr, if_false,
      service_generateViewerToken_build_fails self.agoraService build now _ uid m hne hfail]

theorem refreshToken_details (self : AgoraController) (build : TokenBuilder) (now : Nat)
    (c : JSString) (userId role : JSVal) (m : String) (hc : c ≠ [])
    (hfail : ∀ call, build call = .error m) :
    (self.refreshToken build now ⟨.str c, userId, role⟩).response =
      ⟨500, .failure "Erreur interne du serveur"
        (some ("Impossible de générer le token: " ++ m))⟩ := by
  have h1 : (JSVal.str c).truthy = true := by
    cases c with
    | nil => exact absurd rfl hc
    | cons a as => rfl
  unfold AgoraController.refreshToken
  simp only [h1, Bool.not_true, Bool.false_eq_true, if_false]
  by_cases hu : userId.truthy = true
  · obtain ⟨uid, huid⟩ := generateUidFromString_of_truthy userId hu
    have hn := generateUidFromString_nonneg userId uid huid
    simp only [hu, if_true, huid,
      generateRtcToken_build_fails self.agoraService build now c uid _ m hc hn hfail]
  · simp only [hu, Bool.false_eq_true, if_false,
      generateRtcToken_build_fails self.agoraService build now c 0 _ m hc (le_refl 0) hfail]

theorem endLive_read_details (self : LiveController) (db : SupabaseClient)
    (update : UpdateQuery) (now : Nat) (req : EndLiveRequest) (m : String)
    (hdb : db.single req.id = .rejected m) :
    (self.endLive db update now req).response =
      ⟨500, .failure "Erreur interne du serveur" (some ("Live non trouvé: " ++ m))⟩ := by
  simp [LiveController.endLive, SupabaseService.getLiveById, hdb]

theorem endLive_update_details (self : LiveController) (db : SupabaseClient)
    (update : UpdateQuery) (now : Nat) (req : EndLiveRequest) (live : Live) (m : String)
    (hdb : db.single req.id = .resolved (some live) none) (hown : live.host_id = req.userId)
    (hup : ∀ liveId updates, update liveId updates = .rejected m) :
    (self.endLive db update now req).response =
      ⟨500, .failure "Erreur interne du serveur"
        (some ("Impossible de terminer le live: " ++
          ("Impossible de mettre à jour le live: " ++ m)))⟩ := by
  simp [LiveController.endLive, SupabaseService.getLiveById, hdb, hown,
    SupabaseService.endLive, SupabaseService.updateLive, hup]

theorem joinLive_read_details (self : AgoraController) (svc : SupabaseService)
    (hs : self.supabaseService = some svc) (db : SupabaseClient) (build : TokenBuilder)
    (now : Nat) (req : LiveRequest) (m : String) (hdb : db.single req.liveId = .rejected m) :
    (self.joinLive db build now req).response =
      ⟨500, .failure "Erreur interne du serveur" (some ("Live non trouvé: " ++ m))⟩ := by
  simp [AgoraController.joinLive, hs, SupabaseService.getLiveById, hdb]

theorem generateViewerToken_500 (self : AgoraController) (build : TokenBuilder) (now : Nat)
    (body : TokenRequestBody)
    (h : (self.generateViewerToken build now body).response.status = 500) :
    ∃ d, (self.generateViewerToken build now body).response.body =
      .failure "Erreur interne du serveur" (some d) := by
  generalize hR : self.generateViewerToken build now body = R at h ⊢
  unfold AgoraController.generateViewerToken at hR
  simp only at hR
  repeat' split at hR
  all_goals (subst hR; simp at h ⊢)

theorem generateHostToken_500 (self : AgoraController) (build : TokenBuilder) (now : Nat)
    (body : TokenRequestBody)
    (h : (self.generateHostToken build now body).response.status = 500) :
    ∃ d, (self.generateHostToken build now body).response.body =
      .failure "Erreur interne du serveur" (some d) := by
  generalize hR : self.generateHostToken build now body = R at h ⊢
  unfold AgoraController.generateHostToken at hR
  simp only at hR
  repeat' split at hR
  all_goals (subst hR; simp at h ⊢)

theorem generateLiveToken_500 (self : AgoraController) (build : TokenBuilder) (now : Nat)
    (body : LiveTokenRequestBody)
    (h : (self.generateLiveToken build now body).response.status = 500) :
    ∃ d, (self.generateLiveToken build now body).response.body =
      .failure "Erreur interne du serveur" (some d) := by
  generalize hR : self.generateLiveToken build now body = R at h ⊢
  unfold AgoraController.generateLiveToken at hR
  simp only at hR
  split at hR
  · subst hR; simp at h
  · split at hR
    · subst hR; exact ⟨_, rfl⟩
    · split at hR
      · subst hR; simp at h
      · subst hR; exact ⟨_, rfl⟩

theorem refreshToken_500 (self : AgoraController) (build : TokenBuilder) (now : Nat)
    (body : RefreshRequestBody)
    (h : (self.refreshToken build now body).response.status = 500) :
    ∃ d, (self.refreshToken build now body).response.body =
      .failure "Erreur interne du serveur" (some d) := by
  generalize hR : self.refreshToken build now body = R at h ⊢
  unfold AgoraController.refreshToken at hR
  simp only at hR
  split at hR
  · subst hR; simp at h
  · split at hR
    · subst hR; exact ⟨_, rfl⟩
    · split at hR
      · subst hR; simp at h
      · subst hR; exact ⟨_, rfl⟩

theorem joinLive_500 (self : AgoraController) (db : SupabaseClient) (build : TokenBuilder)
    (now : Nat) (req : LiveRequest)
    (h : (self.joinLive db build now req).response.status = 500) :
    ∃ d, (self.joinLive db build now req).response.body =
      .failure "Erreur interne du serveur" (some d) := by
  generalize hR : self.joinLive db build now req = R at h ⊢
  unfold AgoraController.joinLive at hR
  simp only at hR
  repeat' split at hR
  all_goals (subst hR; simp at h ⊢)

theorem createLiveWith_500 (self : AgoraController) (uuid : Option JSString)
    (insert : InsertQuery) (build : TokenBuilder) (now : Nat) (req : CreateLiveRequest)
    (h : (self.createLiveWith uuid insert build now req).response.status = 500) :
    ∃ d, (self.createLiveWith uuid insert build now req).response.body =
      .failure "Erreur interne du serveur" (some d) := by
  generalize hR : self.createLiveWith uuid insert build now req = R at h ⊢
  unfold AgoraController.createLiveWith at hR
  simp only at hR
  repeat' split at hR
  all_goals (subst hR; simp at h ⊢)

theorem testConfigurationWith_500 (member : Option (Except String TestResult))
    (h : (AgoraController.testConfigurationWith member).status = 500) :
    ∃ d, (AgoraController.testConfigurationWith member).body =
      .failure "Erreur test configuration" (some d) := by
  generalize hR : AgoraController.testConfigurationWith member = R at h ⊢
  unfold AgoraController.testConfigurationWith at hR
  repeat' split at hR
  all_goals (subst hR; simp at h ⊢)

theorem endLive_500 (self : LiveController) (db : SupabaseClient) (update : UpdateQuery)
    (now : Nat) (req : EndLiveRequest)
    (h : (self.endLive db update now req).response.status = 500) :
    ∃ d, (self.endLive db update now req).response.body =
      .failure "Erreur interne du serveur" (some d) := by
  generalize hR : self.endLive db update now req = R at h ⊢
  unfold LiveController.endLive at hR
  repeat' split at hR
  all_goals (subst hR; simp at h ⊢)

set_option maxRecDepth 8000 in
/-- C19 fails as stated: in production mode, two failures of the token
builder that differ only in the message of the thrown error get 500 responses
from `generateViewerToken` whose bodies differ, each carrying the message in
`details`. -/
theorem error_detail_exposed :
    AgoraController.constructor productionEnv = .ok sampleController ∧
    (sampleController.generateViewerToken
      (fun _ => .error "connect ECONNREFUSED 10.0.0.5:443") sampleNow sampleTokenBody).response =
      ⟨500, .failure "Erreur interne du serveur"
        (some "Impossible de générer le token: connect ECONNREFUSED 10.0.0.5:443")⟩ ∧
    (sampleController.generateViewerToken
      (fun _ => .error "invalid certificate a1b2c3") sampleNow sampleTokenBody).response =
      ⟨500, .failure "Erreur interne du serveur"
        (some "Impossible de générer le token: invalid certificate a1b2c3")⟩ ∧
    (sampleController.generateViewerToken
      (fun _ => .error "connect ECONNREFUSED 10.0.0.5:443") sampleNow sampleTokenBody).response ≠
    (sampleController.generateViewerToken
      (fun _ => .error "invalid certificate a1b2c3") sampleNow sampleTokenBody).response := by
  refine ⟨by decide, by decide, by decide, by decide⟩

/-- C19 as amended: the handlers take no `NODE_ENV`, so in every mode: when
the token builder throws with message `m`, the 500 response of
`generateViewerToken`, `generateHostToken`, `generateLiveToken` and
`refreshToken` carries 'Impossible de générer le token: ' followed by `m` in
`details`; when the session read is rejected with `m`, the 500 response of
`LiveController.endLive` and of `joinLive` carries 'Live non trouvé: ' followed
by `m`; every 500 response of these handlers and of `createLive` and
`testConfiguration` has the handler's fixed `error` text and a `details`
member.  The error middleware of `server.js` sends the stack exactly in
development mode and the message of the error in every mode, so outside
development mode two errors that differ only in their non-empty messages get
responses that differ in `message` alone. -/
theorem error_message_by_mode (env : Env) (now : Nat) :
    (∀ (self : AgoraController) (build : TokenBuilder) (m : String),
      (∀ call, build call = .error m) →
      (∀ (c : JSString) (userId : JSVal), c ≠ [] →
        (self.generateViewerToken build now ⟨.str c, userId⟩).response =
          ⟨500, .failure "Erreur interne du serveur"
            (some ("Impossible de générer le token: " ++ m))⟩) ∧
      (∀ (c : JSString) (userId : JSVal), c ≠ [] → userId.truthy = true →
        (self.generateHostToken build now ⟨.str c, userId⟩).response =
          ⟨500, .failure "Erreur interne du serveur"
            (some ("Impossible de générer le token: " ++ m))⟩) ∧
      (∀ (liveId userId role : JSVal), liveId.truthy = true → userId.truthy = true →
        (self.generateLiveToken build now ⟨liveId, userId, role⟩).response =
          ⟨500, .failure "Erreur interne du serveur"
            (some ("Impossible de générer le token: " ++ m))⟩) ∧
      (∀ (c : JSString) (userId role : JSVal), c ≠ [] →
        (self.refreshToken build now ⟨.str c, userId, role⟩).response =
          ⟨500, .failure "Erreur interne du serveur"
            (some ("Impossible de générer le token: " ++ m))⟩)) ∧
    (∀ (self : LiveController) (db : SupabaseClient) (update : UpdateQuery)
      (req : EndLiveRequest) (m : String), db.single req.id = .rejected m →
      (self.endLive db update now req).response =
        ⟨500, .failure "Erreur interne du serveur" (some ("Live non trouvé: " ++ m))⟩) ∧
    (∀ (self : AgoraController) (svc : SupabaseService) (db : SupabaseClient)
      (build : TokenBuilder) (req : LiveRequest) (m : String),
      self.supabaseService = some svc → db.single req.liveId = .rejected m →
      (self.joinLive db build now req).response =
        ⟨500, .failure "Erreur interne du serveur" (some ("Live non trouvé: " ++ m))⟩) ∧
    (∀ (self : AgoraController) (build : TokenBuilder),
      (∀ body, (self.generateViewerToken build now body).response.status = 500 →
        ∃ d, (self.generateViewerToken build now body).response.body =
          .failure "Erreur interne du serveur" (some d)) ∧
      (∀ body, (self.generateHostToken build now body).response.status = 500 →
        ∃ d, (self.generateHostToken build now body).response.body =
          .failure "Erreur interne du serveur" (some d)) ∧
      (∀ body, (self.generateLiveToken build now body).response.status = 500 →
        ∃ d, (self.generateLiveToken build now body).response.body =
          .failure "Erreur interne du serveur" (some d)) ∧
      (∀ body, (self.refreshToken build now body).response.status = 500 →
        ∃ d, (self.refreshToken build now body).response.body =
          .failure "Erreur interne du serveur" (some d)) ∧
      (∀ db req, (self.joinLive db build now req).response.status = 500 →
        ∃ d, (self.joinLive db build now req).response.body =
          .failure "Erreur interne du serveur" (some d)) ∧
      (∀ insert req, (self.createLive insert build now req).response.status = 500 →
        ∃ d, (self.createLive insert build now req).response.body =
          .failure "Erreur interne du serveur" (some d)) ∧
      (self.testConfiguration.status = 500 →
        ∃ d, self.testConfiguration.body = .failure "Erreur test configuration" (some d))) ∧
    (∀ (self : LiveController) (db : SupabaseClient) (update : UpdateQuery)
      (req : EndLiveRequest), (self.endLive db update now req).response.status = 500 →
      ∃ d, (self.endLive db update now req).response.body =
        .failure "Erreur interne du serveur" (some d)) ∧
    (∀ err : ThrownError,
      (errorMiddleware env now err).error =
        (if env.NODE_ENV = some "development" then some err.stack else none) ∧
      (err.message ≠ "" → (errorMiddleware env now err).message = err.message)) ∧
    (∀ (status : Option Nat) (stack m1 m2 : String), env.NODE_ENV ≠ some "development" →
      m1 ≠ "" → m2 ≠ "" →
      (errorMiddleware env now ⟨status, m1, stack⟩).status =
        (errorMiddleware env now ⟨status, m2, stack⟩).status ∧
      (errorMiddleware env now ⟨status, m1, stack⟩).error = none ∧
      (errorMiddleware env now ⟨status, m2, stack⟩).error = none ∧
      (errorMiddleware env now ⟨status, m1, stack⟩).timestamp =
        (errorMiddleware env now ⟨status, m2, stack⟩).timestamp ∧
      (errorMiddleware env now ⟨status, m1, stack⟩).message = m1 ∧
      (errorMiddleware env now ⟨status, m2, stack⟩).message = m2) := by
  refine ⟨?_, ?_, ?_, ?_, ?_, ?_, ?_⟩
  · intro self build m hfail
    exact ⟨fun c userId hc => generateViewerToken_details self build now c userId m hc hfail,
      fun c userId hc hu => generateHostToken_details self build now c userId m hc hu hfail,
      fun liveId userId role hl hu =>
        generateLiveToken_details self build now liveId userId role m hl hu hfail,
      fun c userId role hc => refreshToken_details self build now c userId role m hc hfail⟩
  · intro self db update req m hdb
    exact endLive_read_details self db update now req m hdb
  · intro self svc db build req m hs hdb
    exact joinLive_read_details self svc hs db build now req m hdb
  · intro self build
    exact ⟨generateViewerToken_500 self build now, generateHostToken_500 self build now,
      generateLiveToken_500 self build now, refreshToken_500 self build now,
      fun db req => joinLive_500 self db build now req,
      fun insert req => createLiveWith_500 self AgoraController.uuidv4 insert build now req,
      testConfigurationWith_500 _⟩
  · intro self db update req
    exact endLive_500 self db update now req
  · intro err
    refine ⟨rfl, ?_⟩
    intro hm
    simp [errorMiddleware, String.isEmpty_iff, hm]
  · intro status stack m1 m2 hmode h1 h2
    simp [errorMiddleware, String.isEmpty_iff, hmode, h1, h2]

set_option maxRecDepth 8000 in
/-- C19 as amended, in production mode: `generateHostToken` on a builder
failure with the message "invalid certificate a1b2c3", `endLive` on a rejected
session read, and the error middleware on two errors with different
messages. -/
theorem error_message_by_mode_witness :
    (sampleController.generateHostToken (fun _ => .error "invalid certificate a1b2c3")
      sampleNow ⟨.str (utf16 "room-42"), .str (utf16 "user-7")⟩).response =
      ⟨500, .failure "Erreur interne du serveur"
        (some ("Impossible de générer le token: " ++ "invalid certificate a1b2c3"))⟩ ∧
    (sampleLiveController.endLive failingDb sampleUpdate sampleNow
      ⟨sampleLiveId, .str (utf16 "host-1")⟩).response =
      ⟨500, .failure "Erreur interne du serveur"
        (some ("Live non trouvé: " ++ "fetch failed"))⟩ ∧
    ((errorMiddleware productionEnv sampleNow ⟨none, "disk full", "Error: disk full at x.js:1"⟩
        ).status =
      (errorMiddleware productionEnv sampleNow ⟨none, "timeout", "Error: disk full at x.js:1"⟩
        ).status ∧
    (errorMiddleware productionEnv sampleNow ⟨none, "disk full", "Error: disk full at x.js:1"⟩
        ).error = none ∧
    (errorMiddleware productionEnv sampleNow ⟨none, "timeout", "Error: disk full at x.js:1"⟩
        ).error = none ∧
    (errorMiddleware productionEnv sampleNow ⟨none, "disk full", "Error: disk full at x.js:1"⟩
        ).timestamp =
      (errorMiddleware productionEnv sampleNow ⟨none, "timeout", "Error: disk full at x.js:1"⟩
        ).timestamp ∧
    (errorMiddleware productionEnv sampleNow ⟨none, "disk full", "Error: disk full at x.js:1"⟩
        ).message = "disk full" ∧
    (errorMiddleware productionEnv sampleNow ⟨none, "timeout", "Error: disk full at x.js:1"⟩
        ).message = "timeout") :=
  ⟨((error_message_by_mode productionEnv sampleNow).1 sampleController
      (fun _ => .error "invalid certificate a1b2c3") "invalid certificate a1b2c3"
      (fun _ => rfl)).2.1 (utf16 "room-42") (.str (utf16 "user-7")) (by decide) (by decide),
    (error_message_by_mode productionEnv sampleNow).2.1 sampleLiveController failingDb
      sampleUpdate ⟨sampleLiveId, .str (utf16 "host-1")⟩ "fetch failed" rfl,
    (error_message_by_mode productionEnv sampleNow).2.2.2.2.2.2 none
      "Error: disk full at x.js:1" "disk full" "timeout" (by decide) (by decide) (by decide)⟩

/-- C20: the response of `getConfigInfo` is a 200 whose data are `appId`,
`certificateConfigured`, `isConfigValid` and `environment` and nothing else,
and two environments that differ only in the non-empty value of
`AGORA_APP_CERTIFICATE` get the same response. -/
theorem config_info_hides_certificate (self : AgoraController) (env : Env) :
    (∃ appId certificateConfigured isConfigValid environment,
      self.getConfigInfo env =
        ⟨200, .configInfo appId certificateConfigured isConfigValid environment
          "Configuration Agora récupérée"⟩) ∧
    (∀ c1 c2 : String, c1 ≠ "" → c2 ≠ "" →
      self.getConfigInfo ⟨env.AGORA_APP_ID, some c1, env.NODE_ENV⟩ =
        self.getConfigInfo ⟨env.AGORA_APP_ID, some c2, env.NODE_ENV⟩) := by
  constructor
  · exact ⟨_, _, _, _, rfl⟩
  · intro c1 c2 h1 h2
    have e1 : c1.isEmpty = false := by
      rw [Bool.eq_false_iff]
      simpa [String.isEmpty_iff] using h1
    have e2 : c2.isEmpty = false := by
      rw [Bool.eq_false_iff]
      simpa [String.isEmpty_iff] using h2
    simp [AgoraController.getConfigInfo, e1, e2]

/-- C20 at two environments whose certificates differ. -/
theorem config_info_hides_certificate_witness :
    sampleController.getConfigInfo ⟨some "app-id", some "certificate-one", some "production"⟩ =
      sampleController.getConfigInfo ⟨some "app-id", some "certificate-two", some "production"⟩ :=
  (config_info_hides_certificate sampleController productionEnv).2 "certificate-one"
    "certificate-two" (by decide) (by decide)

/-! ## Ending a session -/

/-- C21: when the stored session's `host_id` differs from the requesting
user's id, `LiveController.endLive` answers 403 and does not call the store's
`endLive`; whatever the store answers, `endLive` is called only after a session
was read whose `host_id` equals the user's id. -/
theorem end_live_owner_only (self : LiveController) (db : SupabaseClient)
    (update : UpdateQuery) (now : Nat) (req : EndLiveRequest) :
    (∀ live : Live, db.single req.id = .resolved (some live) none →
      live.host_id ≠ req.userId →
      self.endLive db update now req =
        ⟨[.getLiveById req.id], ⟨403, .failure "Non autorisé à terminer ce live" none⟩⟩) ∧
    (SupabaseCall.endLive req.id ∈ (self.endLive db update now req).storeCalls →
      ∃ live : Live, db.single req.id = .resolved (some live) none ∧
        live.host_id = req.userId) := by
  constructor
  · intro live hdb hne
    simp [LiveController.endLive, SupabaseService.getLiveById, hdb, hne]
  · intro h
    unfold LiveController.endLive SupabaseService.getLiveById at h
    cases hq : db.single req.id with
    | rejected message =>
      rw [hq] at h
      simp at h
    | resolved data error =>
      rw [hq] at h
      cases error with
      | some e => simp at h
      | none =>
        cases data with
        | none => simp at h
        | some live =>
          by_cases hne : live.host_id = req.userId
          · exact ⟨live, rfl, hne⟩
          · simp [hne] at h

set_option maxRecDepth 8000 in
/-- C21 at a session hosted by "host-1": the user "user-7" gets 403 and no
`endLive` call, and a run that calls `endLive` is one by "host-1". -/
theorem end_live_owner_only_witness :
    sampleLiveController.endLive sampleDb sampleUpdate sampleNow
        ⟨sampleLiveId, .str (utf16 "user-7")⟩ =
      ⟨[.getLiveById sampleLiveId],
        ⟨403, .failure "Non autorisé à terminer ce live" none⟩⟩ ∧
    ∃ live : Live, sampleDb.single sampleLiveId = .resolved (some live) none ∧
      live.host_id = .str (utf16 "host-1") :=
  ⟨(end_live_owner_only sampleLiveController sampleDb sampleUpdate sampleNow
      ⟨sampleLiveId, .str (utf16 "user-7")⟩).1
      ⟨sampleLiveId, .str (utf16 "host-1"), .bool true,
        .str (utf16 "live_" ++ sampleLiveId.toJSString)⟩ rfl (by decide),
    (end_live_owner_only sampleLiveController sampleDb sampleUpdate sampleNow
      ⟨sampleLiveId, .str (utf16 "host-1")⟩).2 (by decide)⟩

/-! ## Validation of the channel name -/

theorem isChannelChar_le (c : CodeUnit) (h : isChannelChar c = true) : c.val ≤ 122 := by
  unfold isChannelChar at h
  simp only [Bool.or_eq_true, Bool.and_eq_true, decide_eq_true_eq, beq_iff_eq] at h
  omega

theorem presentationSequences_of_channel (s : JSString) (h : s.all isChannelChar = true) :
    presentationSequences s = 0 := by
  unfold presentationSequences
  rw [List.countP_eq_zero]
  intro c hc
  have hle := isChannelChar_le c (List.all_eq_true.mp h c hc)
  simp only [Bool.or_eq_true, beq_iff_eq, not_or]
  constructor <;> omega

theorem surrogatePairs_of_channel (s : JSString) (h : s.all isChannelChar = true) :
    surrogatePairs s = 0 := by
  induction s with
  | nil => rfl
  | cons a rest ih =>
    have ha : isChannelChar a = true := by
      simp only [List.all_cons, Bool.and_eq_true] at h
      exact h.1
    have hrest : rest.all isChannelChar = true := by
      simp only [List.all_cons, Bool.and_eq_true] at h
      exact h.2
    have hle := isChannelChar_le a ha
    cases rest with
    | nil => rfl
    | cons b rest2 =>
      have hnot : ((55296 ≤ a.val && a.val ≤ 56319) && (56320 ≤ b.val && b.val ≤ 57343)) =
          false := by
        have : ¬ (55296 ≤ a.val) := by omega
        simp [this]
      simp only [surrogatePairs, hnot, Bool.false_eq_true, if_false]
      exact ih hrest

theorem channelNameErrors_nil_iff_value (v : JSVal) :
    channelNameErrors v = [] ↔ matchesChannelPattern (validatorString v) = true := by
  unfold channelNameErrors
  generalize validatorString v = s
  constructor
  · intro h
    have hlen : isLength 1 64 s = true := by
      by_contra hc
      simp [hc] at h
    have hre : matchesChannelRegex s = true := by
      by_contra hc
      simp [hc] at h
    unfold matchesChannelRegex at hre
    simp only [Bool.and_eq_true] at hre
    unfold isLength at hlen
    rw [presentationSequences_of_channel s hre.2, surrogatePairs_of_channel s hre.2] at hlen
    simp only [Nat.sub_zero, Bool.and_eq_true, decide_eq_true_eq] at hlen
    unfold matchesChannelPattern
    simp [hlen.1, hlen.2, hre.2]
  · intro h
    unfold matchesChannelPattern at h
    simp only [Bool.and_eq_true, decide_eq_true_eq] at h
    have hlen : isLength 1 64 s = true := by
      unfold isLength
      rw [presentationSequences_of_channel s h.2, surrogatePairs_of_channel s h.2]
      simp [h.1.1, h.1.2]
    have hne : s.isEmpty = false := by
      cases s with
      | nil => simp at h
      | cons a as => rfl
    have hre : matchesChannelRegex s = true := by
      unfold matchesChannelRegex
      simp [hne, h.2]
    simp [hlen, hre]

theorem channelNameErrors_nil_iff (s : JSString) :
    channelNameErrors (.str s) = [] ↔ matchesChannelPattern s = true :=
  channelNameErrors_nil_iff_value (.str s)

set_option maxRecDepth 8000 in
/-- C22 fails as stated: the number 123 and the boolean `true` are not
strings, yet the `channelName` chain, which has no `isString()`, checks their
string forms "123" and "true", leaves no error, and `validateTokenRequest`
calls `next` without answering 400. -/
theorem channel_rule_accepts_number :
    (JSVal.num 123).isString = false ∧
    validatorString (.num 123) = utf16 "123" ∧
    channelNameErrors (.num 123) = [] ∧
    validateTokenRequest ⟨.num 123, .undefined⟩ = ⟨true, none⟩ ∧
    (JSVal.bool true).isString = false ∧
    validateTokenRequest ⟨.bool true, .str (utf16 "user-7")⟩ = ⟨true, none⟩ := by
  refine ⟨rfl, by decide, by decide, by decide, rfl, by decide⟩

/-- C22 as amended: the `channelName` chain of `validateTokenRequest` checks
the string form of the value, which for a string is the string itself; it
leaves no error exactly when that string form matches `[A-Za-z0-9_-]{1,64}`,
so a string is accepted exactly when it matches; for every value whose string
form does not match, `handleValidationErrors` answers 400 with the errors and
does not call `next`; for a value whose string form matches, with an absent
or string `userId`, it calls `next` and sends nothing. -/
theorem channel_rule_exact :
    (∀ s : JSString, validatorString (.str s) = s) ∧
    (∀ v : JSVal, channelNameErrors v = [] ↔ matchesChannelPattern (validatorString v) = true) ∧
    (∀ s : JSString, channelNameErrors (.str s) = [] ↔ matchesChannelPattern s = true) ∧
    (∀ (v userId : JSVal), matchesChannelPattern (validatorString v) = false →
      validateTokenRequest ⟨v, userId⟩ =
        ⟨false, some ⟨400, .invalid "Données invalides" (validationResult ⟨v, userId⟩)⟩⟩) ∧
    (∀ (v userId : JSVal), matchesChannelPattern (validatorString v) = true →
      userId = .undefined ∨ userId.isString = true →
      validateTokenRequest ⟨v, userId⟩ = ⟨true, none⟩) := by
  refine ⟨fun _ => rfl, channelNameErrors_nil_iff_value, channelNameErrors_nil_iff, ?_, ?_⟩
  · intro v userId h
    have hne : channelNameErrors v ≠ [] := by
      intro hnil
      rw [(channelNameErrors_nil_iff_value v).1 hnil] at h
      exact Bool.noConfusion h
    have hres : (validationResult ⟨v, userId⟩).isEmpty = false := by
      unfold validationResult
      cases hce : channelNameErrors v with
      | nil => exact absurd hce hne
      | cons e es => rfl
    unfold validateTokenRequest handleValidationErrors
    simp [hres]
  · intro v userId h hu
    have hnil := (channelNameErrors_nil_iff_value v).2 h
    have hunil : userIdErrors userId = [] := by
      unfold userIdErrors
      rcases hu with hu | hu
      · simp [hu]
      · simp [hu]
    unfold validateTokenRequest handleValidationErrors validationResult
    simp [hnil, hunil]

set_option maxRecDepth 8000 in
/-- C22 as amended, at the channel names "room 42!" (rejected), "room-42"
(accepted) and an absent channel name (rejected). -/
theorem channel_rule_exact_witness :
    validateTokenRequest ⟨.str (utf16 "room 42!"), .str (utf16 "user-7")⟩ =
      ⟨false, some ⟨400, .invalid "Données invalides"
        (validationResult ⟨.str (utf16 "room 42!"), .str (utf16 "user-7")⟩)⟩⟩ ∧
    validateTokenRequest ⟨.str (utf16 "room-42"), .str (utf16 "user-7")⟩ = ⟨true, none⟩ ∧
    validateTokenRequest ⟨.undefined, .str (utf16 "user-7")⟩ =
      ⟨false, some ⟨400, .invalid "Données invalides"
        (validationResult ⟨.undefined, .str (utf16 "user-7")⟩)⟩⟩ :=
  ⟨channel_rule_exact.2.2.2.1 (.str (utf16 "room 42!")) (.str (utf16 "user-7")) (by decide),
    channel_rule_exact.2.2.2.2 (.str (utf16 "room-42")) (.str (utf16 "user-7")) (by decide)
      (Or.inr rfl),
    channel_rule_exact.2.2.2.1 .undefined (.str (utf16 "user-7")) (by decide)⟩

/-! ## Further properties of the identity hash -/

/-- C23: the empty identity maps to 0 in both implementations, as `null` and
`undefined` do in `generateUidFromUserId`. -/
theorem empty_identity_zero :
    utf16 "" = [] ∧
    AgoraTokenService.generateUidFromUserId (.str []) = 0 ∧
    AgoraTokenService.generateUidFromUserId .null = 0 ∧
    AgoraTokenService.generateUidFromUserId .undefined = 0 ∧
    AgoraController.generateUidFromString (.str []) = .ok 0 := by
  refine ⟨by decide, by decide, by decide, by decide, by decide⟩

set_option maxRecDepth 8000 in
/-- C24: the mapping from identities to actor ids is not injective: the
distinct strings "Aa" and "BB" both map to 2112. -/
theorem uid_not_injective :
    utf16 "Aa" ≠ utf16 "BB" ∧
    AgoraTokenService.generateUidFromUserId (.str (utf16 "Aa")) = 2112 ∧
    AgoraTokenService.generateUidFromUserId (.str (utf16 "BB")) = 2112 ∧
    ¬ Function.Injective (fun s : JSString => AgoraTokenService.generateUidFromUserId (.str s)) := by
  have h1 : utf16 "Aa" ≠ utf16 "BB" := by decide
  have h2 : AgoraTokenService.generateUidFromUserId (.str (utf16 "Aa")) = 2112 := by decide
  have h3 : AgoraTokenService.generateUidFromUserId (.str (utf16 "BB")) = 2112 := by decide
  refine ⟨h1, h2, h3, ?_⟩
  intro hinj
  exact h1 (hinj (h2.trans h3.symm))

/-- C26: the two implementations of the identity hash agree on every string,
the empty one included. -/
theorem uid_implementations_agree (s : JSString) :
    AgoraController.generateUidFromString (.str s) =
      .ok (AgoraTokenService.generateUidFromUserId (.str s)) := by
  cases s with
  | nil => decide
  | cons c cs => rfl

/-! ## The rate-limit response -/

/-- C25: when the limiter rejects with `msBeforeNext = m`, the middleware
answers 429 without calling `next`; `retryAfter` is `max(1, round(m / 1000))`,
a positive integer that is 1 for every `m < 500`, where `round(m / 1000)` is
the integer nearest to `m / 1000` with a half rounded up; the header
`Retry-After` is that number in decimal; when `consume` resolves the
middleware calls `next` and sends nothing. -/
theorem rate_limit_response (errorMessage : String) (m : Nat) :
    rateLimitMiddleware errorMessage (.error ⟨m⟩) =
      ⟨false, some (decimalDigits (max 1 (roundSeconds m))),
        some ⟨429, .rateLimited errorMessage ((max 1 (roundSeconds m) : Nat) : Int)⟩⟩ ∧
    (1000 * roundSeconds m ≤ m + 500 ∧ m + 500 < 1000 * roundSeconds m + 1000) ∧
    0 < max 1 (roundSeconds m) ∧
    (m < 500 → max 1 (roundSeconds m) = 1) ∧
    rateLimitMiddleware errorMessage (.ok ()) = ⟨true, none, none⟩ := by
  refine ⟨?_, ?_, ?_, ?_, rfl⟩
  · unfold rateLimitMiddleware
    by_cases h : roundSeconds m = 0
    · simp [h]
    · have hmax : max 1 (roundSeconds m) = roundSeconds m := by omega
      simp [h, hmax]
  · unfold roundSeconds
    omega
  · omega
  · intro h
    unfold roundSeconds
    omega

set_option maxRecDepth 8000 in
/-- C25 at a rejection with 300000 ms and one with 120 ms before the next
attempt. -/
theorem rate_limit_response_witness :
    tokenRateLimit (.error ⟨300000⟩) =
      ⟨false, some (utf16 "300"),
        some ⟨429, .rateLimited "Trop de demandes de tokens. Veuillez patienter." 300⟩⟩ ∧
    max 1 (roundSeconds 120) = 1 :=
  ⟨(rate_limit_response "Trop de demandes de tokens. Veuillez patienter." 300000).1.trans
      (by decide),
    (rate_limit_response "Trop de demandes de tokens. Veuillez patienter." 120).2.2.2.1
      (by decide)⟩

/-! ## The channel name of a session -/

theorem isChannelChar_of_isUuidChar (c : CodeUnit) (h : isUuidChar c = true) :
    isChannelChar c = true := by
  unfold isUuidChar at h
  unfold isChannelChar
  simp only [Bool.or_eq_true, Bool.and_eq_true, decide_eq_true_eq, beq_iff_eq] at h ⊢
  omega

theorem generateRtcToken_calls_channel (self : AgoraTokenService) (build : TokenBuilder)
    (now : Nat) (channelName uid role : JSVal) (expireTime : Option Int) (call : BuilderCall)
    (h : call ∈ (self.generateRtcToken build now channelName uid role expireTime).calls) :
    call.channelName = channelName := by
  rw [generateRtcToken_calls_eq] at h
  rcases generateRtcTokenTry_calls self build now channelName (defaultParam uid (.num 0))
    (defaultParam role (.str (utf16 "audience"))) expireTime with h0 | h1
  · rw [h0] at h
    simp at h
  · rw [h1] at h
    simp only [List.mem_singleton] at h
    rw [h]
    rfl

theorem generateLiveToken_calls_channel (self : AgoraController) (build : TokenBuilder)
    (now : Nat) (body : LiveTokenRequestBody) (call : BuilderCall)
    (h : call ∈ (self.generateLiveToken build now body).calls) :
    call.channelName = .str (utf16 "live_" ++ body.liveId.toJSString) := by
  unfold AgoraController.generateLiveToken at h
  simp only at h
  split at h
  · simp at h
  · split at h
    · simp at h
    · by_cases hr : defaultParam body.role (.str (utf16 "viewer")) = .str (utf16 "host") ∨
          defaultParam body.role (.str (utf16 "viewer")) = .str (utf16 "publisher")
      · simp only [hr, if_true] at h
        split at h <;> exact generateRtcToken_calls_channel _ _ _ _ _ _ _ _ h
      · simp only [hr, if_false] at h
        split at h <;> exact generateRtcToken_calls_channel _ _ _ _ _ _ _ _ h

theorem service_generateHostToken_num (self : AgoraTokenService) (build : TokenBuilder)
    (now : Nat) (channelName : JSVal) (n : Int) :
    self.generateHostToken build now channelName (.num n) =
      self.generateRtcToken build now channelName (.num 0) (.str (utf16 "publisher")) none := by
  unfold AgoraTokenService.generateHostToken
  simp only [generateUidFromUserId_num]

theorem generateRtcToken_default_success (self : AgoraTokenService) (build : TokenBuilder)
    (now : Nat) (c : JSString) (n : Int) (role : JSString) (t : String) (hc : c ≠ [])
    (hn : 0 ≤ n) (hd : self.defaultExpireTime = 86400)
    (hclock : ((now : Int) / 1000 + 86400) * 1000 ≤ maxTimeValue)
    (hb : build (builderCallOf self now (.str c) (.num n) (.str role) none) = .ok t) :
    (self.generateRtcToken build now (.str c) (.num n) (.str role) none).result =
      .ok ⟨t, self.appId, .str c, .num n, .str role,
        AgoraTokenService.tokenExpireTimeOf self now none,
        AgoraTokenService.tokenExpireTimeOf self now none * 1000, (now : Int)⟩ ∧
    (self.generateRtcToken build now (.str c) (.num n) (.str role) none).calls =
      [builderCallOf self now (.str c) (.num n) (.str role) none] := by
  have hr := default_expiry_in_range now hclock
  have e := generateRtcTokenTry_success self build now c n (.str role) none t hc hn hb
    (by rw [tokenExpireTimeOf_none, hd]; exact hr.1)
    (by rw [tokenExpireTimeOf_none, hd]; exact hr.2)
  exact ⟨(generateRtcToken_ok_iff self build now (.str c) (.num n) (.str role) none _).2 e,
    (generateRtcToken_calls_eq _ _ _ _ _ _ _).trans (generateRtcTokenTry_ok _ _ _ _ _ _ _ _ e).1⟩

/-- For every session id of 36 characters that are hexadecimal digits or
hyphens, the channel name `live_` followed by the id has length 41 and matches
`[A-Za-z0-9_-]{1,64}`; it is a non-empty string, so it passes the channel check
of `generateRtcToken`, and it is the channel of every builder call that
`generateLiveToken` makes for that id. -/
theorem live_channel_name_valid (liveId : JSString) (h : isCanonicalUuid liveId = true) :
    (utf16 "live_" ++ liveId).length = 41 ∧
    matchesChannelPattern (utf16 "live_" ++ liveId) = true ∧
    (JSVal.str (utf16 "live_" ++ liveId)).truthy = true ∧
    (JSVal.str (utf16 "live_" ++ liveId)).isString = true ∧
    (∀ (self : AgoraController) (build : TokenBuilder) (now : Nat) (userId role : JSVal)
      (call : BuilderCall),
      call ∈ (self.generateLiveToken build now ⟨.str liveId, userId, role⟩).calls →
      call.channelName = .str (utf16 "live_" ++ liveId)) := by
  unfold isCanonicalUuid at h
  simp only [Bool.and_eq_true, beq_iff_eq] at h
  have hlive5 : utf16 "live_" = [108, 105, 118, 101, 95] := by decide
  have hlen : (utf16 "live_" ++ liveId).length = 41 := by
    rw [hlive5, List.length_append, h.1]
    rfl
  have hall : (utf16 "live_" ++ liveId).all isChannelChar = true := by
    rw [List.all_append, Bool.and_eq_true]
    constructor
    · rw [hlive5]
      decide
    · rw [List.all_eq_true]
      intro c hc
      exact isChannelChar_of_isUuidChar c (List.all_eq_true.mp h.2 c hc)
  refine ⟨hlen, ?_, ?_, rfl, ?_⟩
  · unfold matchesChannelPattern
    simp [hlen, hall]
  · rw [hlive5]
    rfl
  · intro self build now userId role call hcall
    exact generateLiveToken_calls_channel self build now ⟨.str liveId, userId, role⟩ call hcall

/-- With a builder that succeeds, `generateLiveToken` for a session id of 36
hexadecimal digits and hyphens and a non-empty identity answers 200 after
exactly one builder call, and both the call and the credential carry the
channel name `live_` followed by the id. -/
theorem generateLiveToken_uuid_ok (self : AgoraController)
    (hd : self.agoraService.defaultExpireTime = 86400) (build : TokenBuilder)
    (hb : ∀ call, ∃ t, build call = .ok t) (now : Nat)
    (hclock : ((now : Int) / 1000 + 86400) * 1000 ≤ maxTimeValue)
    (liveId u : JSString) (role : JSVal) (hid : isCanonicalUuid liveId = true) (hu : u ≠ []) :
    ∃ call data message,
      self.generateLiveToken build now ⟨.str liveId, .str u, role⟩ =
        ⟨[call], ⟨200, .liveToken data message⟩⟩ ∧
      call.channelName = .str (utf16 "live_" ++ liveId) ∧
      data.channelName = .str (utf16 "live_" ++ liveId) := by
  have hvalid := live_channel_name_valid liveId hid
  have hne : utf16 "live_" ++ liveId ≠ [] := by
    intro h0
    have := hvalid.1
    rw [h0] at this
    simp at this
  have hidt : (JSVal.str liveId).truthy = true := by
    unfold isCanonicalUuid at hid
    simp only [Bool.and_eq_true, beq_iff_eq] at hid
    cases liveId with
    | nil => simp at hid
    | cons a as => rfl
  have hut : (JSVal.str u).truthy = true := by
    cases u with
    | nil => exact absurd rfl hu
    | cons a as => rfl
  obtain ⟨t1, ht1⟩ := hb (builderCallOf self.agoraService now (.str (utf16 "live_" ++ liveId))
    (.num 0) (.str (utf16 "publisher")) none)
  obtain ⟨t2, ht2⟩ := hb (builderCallOf self.agoraService now (.str (utf16 "live_" ++ liveId))
    (.num 0) (.str (utf16 "audience")) none)
  have s1 := generateRtcToken_default_success self.agoraService build now _ 0
    (utf16 "publisher") t1 hne (le_refl 0) hd hclock ht1
  have s2 := generateRtcToken_default_success self.agoraService build now _ 0
    (utf16 "audience") t2 hne (le_refl 0) hd hclock ht2
  unfold AgoraController.generateLiveToken
  simp only [hidt, hut, Bool.not_true, Bool.or_self, Bool.false_eq_true, if_false,
    AgoraController.generateUidFromString, JSVal.toJSString]
  by_cases hr : defaultParam role (.str (utf16 "viewer")) = .str (utf16 "host") ∨
      defaultParam role (.str (utf16 "viewer")) = .str (utf16 "publisher")
  · simp only [hr, if_true, service_generateHostToken_num, s1.1, s1.2]
    exact ⟨_, _, _, rfl, rfl, rfl⟩
  · simp only [hr, if_false, service_generateViewerToken_num, s2.1, s2.2]
    exact ⟨_, _, _, rfl, rfl, rfl⟩

/-- Were `uuidv4()` to return a session id of 36 hexadecimal digits and
hyphens, `createLive` would hand the channel name `live_` followed by the id
to the builder, in its one builder call. -/
theorem createLiveWith_uuid_call (self : AgoraController)
    (hd : self.agoraService.defaultExpireTime = 86400) (insert : InsertQuery)
    (build : TokenBuilder) (hb : ∀ call, ∃ t, build call = .ok t) (now : Nat)
    (hclock : ((now : Int) / 1000 + 86400) * 1000 ≤ maxTimeValue)
    (liveId u : JSString) (title : JSVal) (hid : isCanonicalUuid liveId = true)
    (ht : title.truthy = true) (hu : u ≠ []) :
    (self.createLiveWith (some liveId) insert build now ⟨title, .str u⟩).calls =
      [builderCallOf self.agoraService now (.str (utf16 "live_" ++ liveId)) (.num 0)
        (.str (utf16 "publisher")) none] := by
  have hvalid := live_channel_name_valid liveId hid
  have hne : utf16 "live_" ++ liveId ≠ [] := by
    intro h0
    have := hvalid.1
    rw [h0] at this
    simp at this
  have hut : (JSVal.str u).truthy = true := by
    cases u with
    | nil => exact absurd rfl hu
    | cons a as => rfl
  obtain ⟨t1, ht1⟩ := hb (builderCallOf self.agoraService now (.str (utf16 "live_" ++ liveId))
    (.num 0) (.str (utf16 "publisher")) none)
  have s1 := generateRtcToken_default_success self.agoraService build now _ 0
    (utf16 "publisher") t1 hne (le_refl 0) hd hclock ht1
  unfold AgoraController.createLiveWith
  simp only [ht, hut, Bool.not_true, Bool.or_self, Bool.false_eq_true, if_false,
    AgoraController.generateUidFromString, service_generateHostToken_num, s1.1, s1.2]
  cases self.supabaseService with
  | none => rfl
  | some svc =>
    simp only
    split <;> rfl

/-! ## Creating a session -/

set_option maxRecDepth 20000 in
/-- C27 (the code departs from the claim): `generateLiveToken` for the
session id 123e4567-e89b-12d3-a456-426614174000 answers 200 with the channel
name `live_` followed by the id, which has length 41 and matches the pattern;
but `createLive` with title "Demo" for the user "user-7", on the controller
built by the constructor, answers 500 without a builder call: `uuidv4` is not
defined, so no session id, channel name or token is built. -/
theorem create_live_builds_no_channel :
    AgoraController.constructor sampleEnv = .ok sampleController ∧
    sampleController.createLive sampleInsert sampleBuilder sampleNow
        ⟨.str (utf16 "Demo"), .str (utf16 "user-7")⟩ =
      ⟨[], ⟨500, .failure "Erreur interne du serveur" (some "uuidv4 is not defined")⟩⟩ ∧
    (sampleController.generateLiveToken sampleBuilder sampleNow
        ⟨sampleLiveId, .str (utf16 "test-user-123"), .str (utf16 "viewer")⟩).calls.map
        BuilderCall.channelName =
      [.str (utf16 "live_123e4567-e89b-12d3-a456-426614174000")] ∧
    (sampleController.generateLiveToken sampleBuilder sampleNow
        ⟨sampleLiveId, .str (utf16 "test-user-123"), .str (utf16 "viewer")⟩).response.status =
      200 ∧
    (utf16 "live_123e4567-e89b-12d3-a456-426614174000").length = 41 ∧
    matchesChannelPattern (utf16 "live_123e4567-e89b-12d3-a456-426614174000") = true := by
  refine ⟨by decide, by decide, by decide, by decide, by decide, by decide⟩

end Streamy
